import Mathlib

/-!
Shallow embedding of the TickTick MCP server (`src/index.js`):
the tool dispatcher installed by `setupHandlers`, the HTTP helper
`makeTickTickRequest`, and the tool handler methods cited by the claims
(`getProjects`, `getTasks`, `createTask`, `updateTask`, `deleteTask`,
`completeTask`, `convertDatetimeToTicktickFormat`, `addTagToTask`).

Modelling conventions:
- JSON documents are `JVal`; a JavaScript value that may be `undefined`
  is an `Option JVal` (with `none` playing the role of `undefined`).
- Outbound HTTP traffic is abstracted by an oracle
  `net : Request → Except String HttpResp`; `Except.error m` models a
  rejected `fetch` (network failure), `Except.ok` a delivered response.
- A handler computation is `HttpM α`: given the process configuration and
  the network oracle it returns the JS outcome (normal value or thrown
  error) together with the ordered list of HTTP requests it issued.
- JavaScript `Date` rendering (`toISOString`, `toLocaleDateString`,
  `Date.now`) is abstracted by explicitly-marked total functions; no claim
  depends on date semantics.
-/

namespace TickTick

/-- JSON values, as carried in tool arguments and TickTick API bodies.
Objects keep their fields in insertion order, as JavaScript objects and
`JSON.stringify` do. Numbers are modelled as integers (every number the
claims touch is a small integer). -/
inductive JVal where
  | null
  | bool (b : Bool)
  | num (n : Int)
  | str (s : String)
  | arr (elems : List JVal)
  | obj (fields : List (String × JVal))

mutual

/-- JavaScript `String(v)` coercion (also template-literal interpolation)
for a defined value. Object `toString` details beyond arrays are not
claim-relevant; arrays render by joining coerced elements with `,`. -/
def jsString : JVal → String
  | .null => "null"
  | .bool true => "true"
  | .bool false => "false"
  | .num n => toString n
  | .str s => s
  | .arr l => String.intercalate "," (jsStringList l)
  | .obj _ => "[object Object]"

def jsStringList : List JVal → List String
  | [] => []
  | v :: vs => jsString v :: jsStringList vs

end

/-- JavaScript string coercion of a possibly-`undefined` value:
`${undefined}` renders as "undefined". -/
def jsStringOpt : Option JVal → String
  | none => "undefined"
  | some v => jsString v

/-- JavaScript truthiness of a possibly-`undefined` value:
`undefined`, `null`, `false`, `0` and `""` are falsy, everything else
(including every array and object) is truthy. -/
def truthy : Option JVal → Bool
  | none => false
  | some .null => false
  | some (.bool b) => b
  | some (.num n) => if n = 0 then false else true
  | some (.str s) => if s = "" then false else true
  | some (.arr _) => true
  | some (.obj _) => true

/-- Truthiness of `v.length`: nonzero for nonempty arrays and strings,
`undefined` (falsy) for everything else. -/
def truthyLen : Option JVal → Bool
  | some (.arr l) => if l.length = 0 then false else true
  | some (.str s) => if s.length = 0 then false else true
  | _ => false

/-- `Array.prototype.includes` comparison (SameValueZero) restricted to
primitives; two distinct arrays or objects compare by reference in
JavaScript and are modelled as never equal. -/
def jvalSameValue : JVal → JVal → Bool
  | .null, .null => true
  | .bool a, .bool b => a == b
  | .num a, .num b => a == b
  | .str a, .str b => a == b
  | _, _ => false

/-- Field lookup `o.k` on a receiver already known not to be `null`:
objects yield their field (or `undefined`), primitives yield `undefined`,
exactly as JavaScript. Property access on a `null`/`undefined` receiver
throws in JavaScript; that path is modelled by the fallible accessors and
the explicit null checks in the formatters below, never by `jget`. -/
def jget : JVal → String → Option JVal
  | .obj fs, k => (fs.find? (fun p => p.1 == k)).map (·.2)
  | _, _ => none

/-- The tool-call argument object: named arguments in order. -/
abbrev Args := List (String × JVal)

/-- Argument lookup `args.k`; `none` models a missing (undefined) field. -/
def jlookup (args : Args) (key : String) : Option JVal :=
  match args.find? (fun p => p.1 == key) with
  | some p => some p.2
  | none => none

/-- Hexadecimal digit (upper case) for percent-encoding. -/
def hexDigit (n : Nat) : Char :=
  if n < 10 then Char.ofNat (48 + n) else Char.ofNat (55 + n)

/-- Percent-encoding of one byte value. -/
def percentByte (b : Nat) : String :=
  "%" ++ String.mk [hexDigit (b / 16 % 16), hexDigit (b % 16)]

/-- UTF-8 byte values of one code point (as naturals). -/
def utf8Bytes (c : Char) : List Nat :=
  let n := c.toNat
  if n < 128 then [n]
  else if n < 2048 then [192 + n / 64, 128 + n % 64]
  else if n < 65536 then [224 + n / 4096, 128 + n / 64 % 64, 128 + n % 64]
  else [240 + n / 262144, 128 + n / 4096 % 64, 128 + n / 64 % 64, 128 + n % 64]

/-- One character under `application/x-www-form-urlencoded` serialization
(the `URLSearchParams` encoder): space becomes `+`, ASCII alphanumerics
and `*-._` pass through, everything else is percent-encoded bytewise. -/
def formEncodeChar (c : Char) : String :=
  if c = ' ' then "+"
  else if c.isAlphanum || c = '*' || c = '-' || c = '.' || c = '_' then String.mk [c]
  else String.join ((utf8Bytes c).map percentByte)

/-- `URLSearchParams` encoding of one component. -/
def urlEncode (s : String) : String :=
  String.join (s.toList.map formEncodeChar)

/-- `URLSearchParams.toString()`: `k=v` pairs joined by `&`, both sides
form-encoded. -/
def serializeParams (ps : List (String × String)) : String :=
  String.intercalate "&" (ps.map fun p => urlEncode p.1 ++ "=" ++ urlEncode p.2)

/-- JavaScript `a || b`: the first operand when truthy, otherwise the
second. -/
def jsOr (a b : Option JVal) : Option JVal :=
  if truthy a then a else b

/-- Fallible property access `v.k` where the receiver may be `undefined`
or `null`: JavaScript throws a TypeError there. -/
def jsField (v : Option JVal) (k : String) : Except String (Option JVal) :=
  match v with
  | none => .error ("Cannot read properties of undefined (reading '" ++ k ++ "')")
  | some .null => .error ("Cannot read properties of null (reading '" ++ k ++ "')")
  | some x => .ok (jget x k)

/-- Optional chaining `v?.k`: `undefined` on a nullish receiver. -/
def jsFieldOpt (v : Option JVal) (k : String) : Option JVal :=
  match v with
  | none => none
  | some .null => none
  | some x => jget x k

/-- `v.toString()`: throws on a nullish receiver, otherwise the JavaScript
string coercion. -/
def jsToStr (v : Option JVal) : Except String String :=
  match v with
  | none => .error "Cannot read properties of undefined (reading 'toString')"
  | some .null => .error "Cannot read properties of null (reading 'toString')"
  | some x => .ok (jsString x)

/-- `v.join(sep)`: defined for arrays (elements coerced; the empty
rendering of nullish elements is not modelled); any other receiver throws
`<expr>.join is not a function`, with `expr` the source expression text. -/
def jsJoin (expr : String) (v : Option JVal) (sep : String) : Except String String :=
  match v with
  | some (.arr l) => .ok (String.intercalate sep (l.map jsString))
  | _ => .error (expr ++ ".join is not a function")

/-- Assignment `o.k = v` on an object: an existing key keeps its position
with the value overwritten, a new key is appended (JavaScript
property-order semantics). -/
def jsSetField (fs : List (String × JVal)) (k : String) (v : JVal) : List (String × JVal) :=
  if fs.any (fun p => p.1 == k) then fs.map (fun p => if p.1 == k then (p.1, v) else p)
  else fs ++ [(k, v)]

/-- Spread of a response value into an object literal: object fields in
order; spreading `null`, `undefined`, a number or a boolean contributes no
fields (string character spread is not modelled). -/
def jsSpread : JVal → List (String × JVal)
  | .obj fs => fs
  | _ => []

/-- First-occurrence string replacement, as JavaScript `replace` with a
string pattern (only the first match is replaced). -/
def jsReplaceFirst (s pat rep : String) : String :=
  match s.splitOn pat with
  | [] => s
  | [x] => x
  | x :: rest => x ++ rep ++ String.intercalate pat rest

/-- Abstraction of `new Date().toISOString()` (the current instant). -/
def jsNowISO : String := "(now-iso)"

/-- Abstraction of the current date stamp
`new Date().toISOString().split('T')[0]`. -/
def jsTodayISODate : String := "(today-date)"

/-- Abstraction of the date stamp one day in the past (used by
`getTodayTasks`). -/
def jsYesterdayISODate : String := "(yesterday-date)"

/-- Abstraction of the date stamp `days` days away from now (negative for
the past), used by the date-window endpoints. -/
def jsDateStampOffset (days : Option JVal) : String :=
  "(date+" ++ jsStringOpt days ++ ")"

/-- Abstraction of `new Date().getFullYear()`. -/
def jsCurrentYear : JVal := .str "(current-year)"

/-- Abstraction of the numeric multiplication in `setTaskEstimate`: exact
for number arguments; string-to-number coercion is not modelled
(non-numbers pass through; `undefined` maps to `null`, matching what
`JSON.stringify` makes of the resulting NaN). -/
def jsMulNum (v : Option JVal) (k : Int) : JVal :=
  match v with
  | some (.num n) => .num (n * k)
  | some x => x
  | none => .null

/-- Process configuration: the two credential environment variables read at
module load (`TICKTICK_ACCESS_TOKEN`, `TICKTICK_TOKEN`). `none` models an
unset variable. The remaining TICKTICK_* variables are never read on the
tool-call path. -/
structure Config where
  accessToken : Option String
  token : Option String

/-- JavaScript truthiness of a string environment variable:
unset or empty is falsy. -/
def strTruthy : Option String → Bool
  | none => false
  | some s => if s = "" then false else true

/-- The credential guard condition: `TICKTICK_ACCESS_TOKEN || TICKTICK_TOKEN`
is truthy. -/
def Config.hasCreds (c : Config) : Bool :=
  strTruthy c.accessToken || strTruthy c.token

/-- `TICKTICK_ACCESS_TOKEN || TICKTICK_TOKEN` (value of the JS `||`). -/
def Config.bearerSource (c : Config) : Option String :=
  if strTruthy c.accessToken then c.accessToken else c.token

/-- The `Authorization` header value attached to every upstream request. -/
def Config.authHeader (c : Config) : String :=
  "Bearer " ++ (match c.bearerSource with | some s => s | none => "undefined")

/-- HTTP methods used by the server. -/
inductive HttpMethod where
  | GET
  | POST
  | PUT
  | DELETE
deriving DecidableEq

/-- One outbound HTTP request as built by `makeTickTickRequest`:
method, endpoint path (relative to the base URL), optional JSON body and
the authorization header. -/
structure Request where
  method : HttpMethod
  path : String
  body : Option JVal
  auth : String

/-- Base URL of the upstream TickTick API. -/
def baseUrl : String := "https://api.ticktick.com/open/v1"

/-- The full URL of a request. -/
def Request.url (r : Request) : String := baseUrl ++ r.path

/-- An upstream HTTP response: status line, error body text and parsed
JSON body (`response.json()` of a delivered response). -/
structure HttpResp where
  status : Nat
  statusText : String
  bodyText : String
  bodyJson : JVal

/-- `response.ok`: status in the 2xx range. -/
def HttpResp.isOk (r : HttpResp) : Bool :=
  decide (200 ≤ r.status) && decide (r.status < 300)

/-- MCP protocol error codes used by the server. -/
inductive ErrCode where
  | InvalidRequest
  | MethodNotFound
  | InternalError
deriving DecidableEq

/-- JSON-RPC numeric value of each error code (from the MCP SDK). -/
def ErrCode.jsonRpcCode : ErrCode → Int
  | .InvalidRequest => -32600
  | .MethodNotFound => -32601
  | .InternalError => -32603

/-- A structured `McpError` surfaced to the MCP client. -/
structure McpError where
  code : ErrCode
  message : String

/-- A value thrown inside the dispatcher's `try` block: either a plain JS
`Error` or an `McpError`. -/
inductive Thrown where
  | js (message : String)
  | mcp (e : McpError)

/-- `error.message` as read by a JS `catch` block; the MCP SDK's `McpError`
constructor prefixes its message with `MCP error <code>: `. -/
def Thrown.message : Thrown → String
  | .js m => m
  | .mcp e => "MCP error " ++ toString e.code.jsonRpcCode ++ ": " ++ e.message

/-- A tool handler computation: from the configuration and the network
oracle to the JS outcome together with the ordered trace of outbound HTTP
requests it issued. -/
def HttpM (α : Type) : Type :=
  Config → (Request → Except String HttpResp) → Except Thrown α × List Request

/-- Return a value, issuing no request. -/
def HttpM.pure (a : α) : HttpM α := fun _ _ => (.ok a, [])

/-- Throw, issuing no request. -/
def HttpM.throw (e : Thrown) : HttpM α := fun _ _ => (.error e, [])

/-- Embed a pure JS computation that may throw. -/
def HttpM.ofExcept : Except String α → HttpM α
  | .ok a => .pure a
  | .error m => .throw (.js m)

/-- Sequencing: requests of both stages accumulate in order; a thrown
error short-circuits. -/
def HttpM.bind (x : HttpM α) (f : α → HttpM β) : HttpM β := fun cfg net =>
  match x cfg net with
  | (.ok a, rs) =>
    let r := f a cfg net
    (r.1, rs ++ r.2)
  | (.error e, rs) => (.error e, rs)

/-- A handler's `try { ... } catch (error) { throw new Error(prefix +
error.message) }` wrapper (every handler method uses this shape). -/
def HttpM.rewrap (x : HttpM α) (pre : String) : HttpM α := fun cfg net =>
  match x cfg net with
  | (.error e, rs) => (.error (.js (pre ++ e.message)), rs)
  | r => r

/-- The request a call to `makeTickTickRequest(endpoint, method, data)`
sends: a JSON body is attached only when `data` is truthy and the method
is not GET. -/
def mkRequest (cfg : Config) (endpoint : String) (m : HttpMethod) (d : Option JVal) : Request :=
  { method := m
    path := endpoint
    body := if truthy d && !(m == .GET) then d else none
    auth := cfg.authHeader }

/-- `makeTickTickRequest` (src/index.js:2961): issues exactly one request;
a rejected fetch propagates as a thrown error, a non-ok status throws
`TickTick API error: <status> <statusText> - <errorText>`, an ok response
yields its parsed JSON body. -/
def makeTickTickRequest (endpoint : String) (m : HttpMethod := .GET)
    (d : Option JVal := none) : HttpM JVal := fun cfg net =>
  let req := mkRequest cfg endpoint m d
  match net req with
  | .error msg => (.error (.js msg), [req])
  | .ok resp =>
    if resp.isOk then (.ok resp.bodyJson, [req])
    else
      (.error (.js ("TickTick API error: " ++ toString resp.status ++ " "
        ++ resp.statusText ++ " - " ++ resp.bodyText)), [req])

/-- Abstraction of `new Date(v).toLocaleDateString()` /
`toLocaleTimeString()` on a present value: rendered as an opaque marker.
Only the guarded branches around missing dates are claim-relevant; the
locale rendering of a present date never appears in a claim. -/
def jsDateLocale (v : Option JVal) : String :=
  "(date " ++ jsStringOpt v ++ ")"

/-- Abstraction of `new Date(v).toISOString()`: modelled as JS string
coercion of the input (inputs are treated as already in ISO form; invalid
dates are not modelled). No claim depends on date parsing. -/
def jsDateISO (v : Option JVal) : String := jsStringOpt v

/-- Abstraction of `new Date(v).getTime()` interpolation. -/
def jsDateMillisText (v : Option JVal) : String :=
  "(millis " ++ jsStringOpt v ++ ")"

/-- Abstraction of `new Date().toLocaleDateString()` (the current date). -/
def jsTodayLocale : String := "(today)"

/-- Abstraction of `new Date().toLocaleString()` (the current instant). -/
def jsNowLocale : String := "(now)"

/-- A tool call's result: every handler returns a single text content
block, modelled by its text. -/
structure ToolResult where
  text : String

/-- `getPriorityText` (src/index.js:3286): priority badge used by the task
formatters (the JS `switch` compares with `===`). -/
def getPriorityText : Option JVal → String
  | some (.num 0) => " None"
  | some (.num 1) => " Low"
  | some (.num 3) => " Medium"
  | some (.num 5) => " High"
  | v => "Unknown (" ++ jsStringOpt v ++ ")"

/-- `task.status === 2`: strict equality with the number 2. -/
def isStatus2 : Option JVal → Bool
  | some (.num n) => n == 2
  | _ => false

/-- The status badge `task.status === 2 ? ' Completed' : ' Pending'` used
verbatim by every task formatter in the file. -/
def statusText (v : Option JVal) : String :=
  if isStatus2 v then " Completed" else " Pending"

/-- The filter callback `p => !p.closed` of `getProjects`: throws the
JavaScript TypeError on a `null` element. -/
def projectNotClosed (p : JVal) : Except String Bool :=
  match p with
  | .null => .error "Cannot read properties of null (reading 'closed')"
  | p => .ok (!truthy (jget p "closed"))

/-- `projects.filter(p => !p.closed)`, with the callback's throw behavior
and its left-to-right evaluation order. -/
def filterOpenProjects : List JVal → Except String (List JVal)
  | [] => .ok []
  | p :: ps => do
    let keep ← projectNotClosed p
    let rest ← filterOpenProjects ps
    .ok (if keep then p :: rest else rest)

/-- One project line of the `getProjects` formatter (src/index.js:3011). -/
def formatProject (p : JVal) : String :=
  "**" ++ jsStringOpt (jget p "name") ++ "** (ID: " ++ jsStringOpt (jget p "id") ++ ")\n"
  ++ "- Color: " ++ jsStringOpt (jget p "color") ++ "\n"
  ++ "- Shared: " ++ (if truthy (jget p "isOwner") then "Owner" else "Member") ++ "\n"
  ++ "- Task Count: "
    ++ (if truthy (jget p "taskCount") then jsStringOpt (jget p "taskCount") else "0") ++ "\n"
  ++ "- Modified: "
    ++ (if truthy (jget p "modifiedTime") then jsDateLocale (jget p "modifiedTime")
        else "Unknown") ++ "\n"

/-- The map callback of the `getProjects` formatter: a `null` element
throws at its first property access (`project.name`); every non-null
value formats without throwing (absent fields read as `undefined`). -/
def formatProjectLine (p : JVal) : Except String String :=
  match p with
  | .null => .error "Cannot read properties of null (reading 'name')"
  | p => .ok (formatProject p)

/-- Response shaping of `getProjects` (src/index.js:2998): filters archived
projects unless requested, then renders the text block. A non-array JSON
response makes `projects.filter` (or, with `include_archived`, the later
`.map`) throw; `null` elements throw inside the callbacks. -/
def formatProjects (args : Args) (projects : JVal) : Except String ToolResult :=
  let includeArchived := (jlookup args "include_archived").getD (.bool false)
  match projects with
  | .arr ps => do
    let filtered ← if truthy (some includeArchived) then pure ps else filterOpenProjects ps
    let lines ← filtered.mapM formatProjectLine
    .ok ⟨" **TickTick Projects** (" ++ toString filtered.length ++ " found):\n\n"
      ++ String.intercalate "\n" lines⟩
  | _ =>
    if truthy (some includeArchived)
    then .error "filteredProjects.map is not a function"
    else .error "projects.filter is not a function"

/-- `getProjects` handler (src/index.js:2998). -/
def getProjects (args : Args) : HttpM ToolResult :=
  HttpM.rewrap
    (HttpM.bind (makeTickTickRequest "/project") fun projects =>
      HttpM.ofExcept (formatProjects args projects))
    "Failed to get projects: "

/-- Query-parameter list built by `getTasks` (src/index.js:3051):
`projectId` when `project_id` is truthy, `status` 2/0 when `completed` is
present, and always `limit` (default 50). -/
def getTasksParams (args : Args) : List (String × String) :=
  let pid := jlookup args "project_id"
  let completed := jlookup args "completed"
  let limit := (jlookup args "limit").getD (.num 50)
  (if truthy pid then [("projectId", jsStringOpt pid)] else [])
  ++ (if completed.isSome then [("status", if truthy completed then "2" else "0")] else [])
  ++ [("limit", jsString limit)]

/-- Endpoint string built by `getTasks`: `/task` plus the serialized query
(appended only when nonempty, as in the source; `limit` makes it always
nonempty). -/
def getTasksEndpoint (args : Args) : String :=
  let q := serializeParams (getTasksParams args)
  "/task" ++ (if q = "" then "" else "?" ++ q)

/-- `task.tags.join(', ')` on a present array (elements coerced). -/
def joinTags : Option JVal → String
  | some (.arr l) => String.intercalate ", " (l.map jsString)
  | v => jsStringOpt v

/-- One task line of the `getTasks` formatter (src/index.js:3071). -/
def formatTaskLine (t : JVal) : String :=
  "**" ++ jsStringOpt (jget t "title") ++ "** (ID: " ++ jsStringOpt (jget t "id") ++ ")\n"
  ++ "- Status: " ++ statusText (jget t "status") ++ "\n"
  ++ "- Priority: " ++ getPriorityText (jget t "priority") ++ "\n"
  ++ "- Project: " ++ jsStringOpt (jget t "projectId") ++ "\n"
  ++ (if truthy (jget t "dueDate")
      then "- Due: " ++ jsDateLocale (jget t "dueDate") ++ "\n" else "")
  ++ (if truthy (jget t "tags") && truthyLen (jget t "tags")
      then "- Tags: " ++ joinTags (jget t "tags") ++ "\n" else "")
  ++ "- Modified: " ++ jsDateLocale (jget t "modifiedTime") ++ "\n"

/-- The map callback of the `getTasks` formatter: a `null` element throws
at `task.title`; a truthy non-array `tags` value with a truthy `length`
(a nonempty string) makes `task.tags.join` throw; everything else
formats without throwing. -/
def formatTaskLineE (t : JVal) : Except String String :=
  match t with
  | .null => .error "Cannot read properties of null (reading 'title')"
  | t =>
    if truthy (jget t "tags") && truthyLen (jget t "tags") then
      match jget t "tags" with
      | some (.arr _) => .ok (formatTaskLine t)
      | _ => .error "task.tags.join is not a function"
    else .ok (formatTaskLine t)

/-- Response shaping of `getTasks`: a non-array JSON response makes
`tasks.map` throw, and the map callback can throw per element. -/
def formatTasks (tasks : JVal) : Except String ToolResult :=
  match tasks with
  | .arr ts => do
    let lines ← ts.mapM formatTaskLineE
    .ok ⟨" **TickTick Tasks** (" ++ toString ts.length ++ " found):\n\n"
      ++ String.intercalate "\n" lines⟩
  | _ => .error "tasks.map is not a function"

/-- `getTasks` handler (src/index.js:3051). -/
def getTasks (args : Args) : HttpM ToolResult :=
  HttpM.rewrap
    (HttpM.bind (makeTickTickRequest (getTasksEndpoint args)) fun tasks =>
      HttpM.ofExcept (formatTasks tasks))
    "Failed to get tasks: "

/-- Request body built by `createTask` (src/index.js:3086): literal keys
`title`, `content` (defaulted to `''` when falsy), `priority` (default 0),
`status: 0`, then conditionally `projectId`, `dueDate`, `tags`. A missing
`title` is dropped by `JSON.stringify` (undefined-valued key). -/
def createTaskBody (args : Args) : JVal :=
  let title := jlookup args "title"
  let content := jlookup args "content"
  let priority := (jlookup args "priority").getD (.num 0)
  let pid := jlookup args "project_id"
  let due := jlookup args "due_date"
  let tags := jlookup args "tags"
  .obj
    ((match title with | some v => [("title", v)] | none => [])
      ++ [("content", if truthy content then content.getD .null else .str "")]
      ++ [("priority", priority), ("status", .num 0)]
      ++ (if truthy pid then [("projectId", pid.getD .null)] else [])
      ++ (if truthy due then [("dueDate", .str (jsDateISO due))] else [])
      ++ (if truthy tags && truthyLen tags then [("tags", tags.getD .null)] else []))

/-- Result text of `createTask` over the response JSON. -/
def formatCreatedTask (task : JVal) : ToolResult :=
  ⟨" **Created TickTick Task**\n\n"
    ++ " **Title**: " ++ jsStringOpt (jget task "title") ++ "\n"
    ++ " **ID**: " ++ jsStringOpt (jget task "id") ++ "\n"
    ++ " **Project**: "
      ++ (if truthy (jget task "projectId") then jsStringOpt (jget task "projectId")
          else "Inbox") ++ "\n"
    ++ " **Priority**: " ++ getPriorityText (jget task "priority") ++ "\n"
    ++ (if truthy (jget task "dueDate")
        then " **Due**: " ++ jsDateLocale (jget task "dueDate") ++ "\n" else "")
    ++ (if truthy (jget task "tags") && truthyLen (jget task "tags")
        then " **Tags**: " ++ joinTags (jget task "tags") ++ "\n" else "")
    ++ " **Created**: " ++ jsDateLocale (jget task "createdTime")⟩

/-- Result shaping of `createTask`: a `null` response JSON throws at
`task.title`, a join-unsafe `tags` value throws at `task.tags.join`. -/
def formatCreatedTaskE (task : JVal) : Except String ToolResult :=
  match task with
  | .null => .error "Cannot read properties of null (reading 'title')"
  | t =>
    if truthy (jget t "tags") && truthyLen (jget t "tags") then
      match jget t "tags" with
      | some (.arr _) => .ok (formatCreatedTask t)
      | _ => .error "task.tags.join is not a function"
    else .ok (formatCreatedTask t)

/-- `createTask` handler (src/index.js:3086): one `POST /task`. -/
def createTask (args : Args) : HttpM ToolResult :=
  HttpM.rewrap
    (HttpM.bind (makeTickTickRequest "/task" .POST (some (createTaskBody args))) fun task =>
      HttpM.ofExcept (formatCreatedTaskE task))
    "Failed to create task: "

/-- Request body built by `updateTask` (src/index.js:3119): each field is
copied only when the argument is not `undefined`; `completed` maps to
`status` 2/0 by truthiness. -/
def updateTaskBody (args : Args) : JVal :=
  let title := jlookup args "title"
  let content := jlookup args "content"
  let priority := jlookup args "priority"
  let due := jlookup args "due_date"
  let completed := jlookup args "completed"
  .obj
    ((match title with | some v => [("title", v)] | none => [])
      ++ (match content with | some v => [("content", v)] | none => [])
      ++ (match priority with | some v => [("priority", v)] | none => [])
      ++ (match due with | some v => [("dueDate", .str (jsDateISO (some v)))] | none => [])
      ++ (match completed with
          | some v => [("status", .num (if truthy (some v) then 2 else 0))]
          | none => []))

/-- Result text of `updateTask` over the response JSON. -/
def formatUpdatedTask (task : JVal) : ToolResult :=
  ⟨" **Updated TickTick Task**\n\n"
    ++ " **Title**: " ++ jsStringOpt (jget task "title") ++ "\n"
    ++ " **ID**: " ++ jsStringOpt (jget task "id") ++ "\n"
    ++ " **Status**: " ++ statusText (jget task "status") ++ "\n"
    ++ " **Priority**: " ++ getPriorityText (jget task "priority") ++ "\n"
    ++ " **Updated**: " ++ jsDateLocale (jget task "modifiedTime")⟩

/-- Result shaping of `updateTask`: a `null` response JSON throws at
`task.title`; non-null values format without throwing. -/
def formatUpdatedTaskE (task : JVal) : Except String ToolResult :=
  match task with
  | .null => .error "Cannot read properties of null (reading 'title')"
  | t => .ok (formatUpdatedTask t)

/-- `updateTask` handler (src/index.js:3119): one `POST /task/<task_id>`. -/
def updateTask (args : Args) : HttpM ToolResult :=
  let tid := jsStringOpt (jlookup args "task_id")
  HttpM.rewrap
    (HttpM.bind (makeTickTickRequest ("/task/" ++ tid) .POST (some (updateTaskBody args)))
      fun task => HttpM.ofExcept (formatUpdatedTaskE task))
    "Failed to update task: "

/-- `deleteTask` handler (src/index.js:3147): one `DELETE /task/<task_id>`,
with no argument validation — a missing `task_id` interpolates as
`undefined` in the path. -/
def deleteTask (args : Args) : HttpM ToolResult :=
  let tid := jsStringOpt (jlookup args "task_id")
  HttpM.rewrap
    (HttpM.bind (makeTickTickRequest ("/task/" ++ tid) .DELETE) fun _ =>
      HttpM.pure ⟨" **Deleted TickTick Task**\n\nTask ID: " ++ tid
        ++ " has been permanently deleted."⟩)
    "Failed to delete task: "

/-- Result shaping of `completeTask`: a `null` response JSON throws at
`task.title`; non-null values format without throwing. -/
def formatCompletedTaskE (task : JVal) : Except String ToolResult :=
  match task with
  | .null => .error "Cannot read properties of null (reading 'title')"
  | t =>
    .ok ⟨" **Completed TickTick Task**\n\n"
      ++ " **Title**: " ++ jsStringOpt (jget t "title") ++ "\n"
      ++ " **ID**: " ++ jsStringOpt (jget t "id") ++ "\n"
      ++ " **Status**: Completed\n"
      ++ " **Completed**: " ++ jsTodayLocale⟩

/-- `completeTask` handler (src/index.js:3162): one `POST /task/<task_id>`
with body exactly `\x7bstatus: 2\x7d`. -/
def completeTask (args : Args) : HttpM ToolResult :=
  let tid := jsStringOpt (jlookup args "task_id")
  HttpM.rewrap
    (HttpM.bind
      (makeTickTickRequest ("/task/" ++ tid) .POST (some (.obj [("status", .num 2)])))
      fun task => HttpM.ofExcept (formatCompletedTaskE task))
    "Failed to complete task: "

/-- `convertDatetimeToTicktickFormat` handler (src/index.js:3263): a purely
local conversion that issues no HTTP request at all. -/
def convertDatetimeToTicktickFormat (args : Args) : HttpM ToolResult :=
  let ds := jlookup args "datetime_string"
  let tz := (jlookup args "timezone").getD (.str "UTC")
  HttpM.rewrap
    (HttpM.pure ⟨" **DateTime Conversion**\n\n"
      ++ "**Input**: " ++ jsStringOpt ds ++ "\n"
      ++ "**Timezone**: " ++ jsString tz ++ "\n"
      ++ "**TickTick Format**: " ++ jsDateISO ds ++ "\n"
      ++ "**Timestamp**: " ++ jsDateMillisText ds ++ "\n\n"
      ++ "Use this ISO format for TickTick API calls."⟩)
    "Failed to convert datetime: "

/-- `const currentTags = task.tags || []` followed by the guarded push of
`tag_name` (src/index.js:3459): a `null` task throws; a non-array `tags`
value is modelled as the empty list. -/
def currentTagsOf (task : JVal) (tagJ : JVal) : Except String (List JVal) :=
  match task with
  | .null => .error "Cannot read properties of null (reading 'tags')"
  | t =>
    let cur := match jget t "tags" with
      | some (.arr l) => l
      | _ => []
    .ok (if cur.any (fun v => jvalSameValue v tagJ) then cur else cur ++ [tagJ])

/-- Object-spread update `\x7b...task, tags: currentTags\x7d`: an existing
`tags` key is overwritten in place, otherwise appended; spreading a
non-object produces only the `tags` key (string character spread is not
modelled). -/
def spreadWithTags (task : JVal) (currentTags : List JVal) : JVal :=
  match task with
  | .obj fs =>
    if fs.any (fun p => p.1 == "tags")
    then .obj (fs.map (fun p => if p.1 == "tags" then (p.1, .arr currentTags) else p))
    else .obj (fs ++ [("tags", .arr currentTags)])
  | _ => .obj [("tags", .arr currentTags)]

/-- `addTagToTask` handler (src/index.js:3454): a read-modify-write pair —
`GET /task/<task_id>` then `PUT /task/<task_id>` with the spread task. An
absent `tag_name` (undefined) is modelled as `JVal.null`. -/
def addTagToTask (args : Args) : HttpM ToolResult :=
  let tid := jsStringOpt (jlookup args "task_id")
  let tagJ := (jlookup args "tag_name").getD .null
  HttpM.rewrap
    (HttpM.bind (makeTickTickRequest ("/task/" ++ tid)) fun task =>
      HttpM.bind (HttpM.ofExcept (currentTagsOf task tagJ)) fun currentTags =>
        HttpM.bind
          (makeTickTickRequest ("/task/" ++ tid) .PUT (some (spreadWithTags task currentTags)))
          fun _ =>
            HttpM.pure ⟨" **Added Tag to Task**\n\n"
              ++ " **Task**: " ++ jsStringOpt (jget task "title") ++ "\n"
              ++ " **Tag Added**: " ++ jsString tagJ ++ "\n"
              ++ " **All Tags**: " ++ String.intercalate ", " (currentTags.map jsString) ++ "\n"
              ++ " **Updated**: " ++ jsNowLocale⟩)
    "Failed to add tag to task: "

/-- One built outbound request: endpoint, verb, optional JSON body. -/
structure ReqSpec where
  endpoint : String
  method : HttpMethod
  data : Option JVal

/-- Placeholder text standing for the response formatting of the handlers
whose formatted output no claim mentions; their request construction,
sequencing and error wrapping are embedded faithfully below, the
response text deliberately is not. No theorem depends on this text. -/
def fmtStubText : String := "(response formatting not modelled)"

/-- The request-level shape shared by every remaining handler method:
either one `makeTickTickRequest` call built from the arguments, or a
read-modify-write pair whose second request is built from the arguments
and the first response. `pre` is the handler's catch-block message
prefix; `build`/`build2` may throw (argument preprocessing such as
`.toString()`, `.join()` or `.map()` on malformed arguments throws in
JavaScript before any request). -/
inductive HandlerSpec where
  | oneReq (pre : String) (build : Args → Except String ReqSpec)
      (fmt : Args → JVal → Except String ToolResult)
  | rmw (pre : String) (build1 : Args → Except String ReqSpec)
      (build2 : Args → JVal → Except String ReqSpec)
      (fmt : Args → JVal → JVal → Except String ToolResult)

/-- The catch-block message prefix of a spec. -/
def HandlerSpec.pre : HandlerSpec → String
  | .oneReq pre _ _ => pre
  | .rmw pre _ _ _ => pre

/-- Stubbed response formatter (single request). -/
def fmtStub : Args → JVal → Except String ToolResult :=
  fun _ _ => .ok ⟨fmtStubText⟩

/-- Stubbed response formatter (read-modify-write). -/
def fmtStub2 : Args → JVal → JVal → Except String ToolResult :=
  fun _ _ _ => .ok ⟨fmtStubText⟩

/-- Execution of a handler spec: the handler's `try` body under its
`catch` rewrap. -/
def runSpec : HandlerSpec → Args → HttpM ToolResult
  | .oneReq pre build fmt, args =>
    HttpM.rewrap
      (HttpM.bind (HttpM.ofExcept (build args)) fun r =>
        HttpM.bind (makeTickTickRequest r.endpoint r.method r.data) fun resp =>
          HttpM.ofExcept (fmt args resp)) pre
  | .rmw pre build1 build2 fmt, args =>
    HttpM.rewrap
      (HttpM.bind (HttpM.ofExcept (build1 args)) fun r1 =>
        HttpM.bind (makeTickTickRequest r1.endpoint r1.method r1.data) fun resp1 =>
          HttpM.bind (HttpM.ofExcept (build2 args resp1)) fun r2 =>
            HttpM.bind (makeTickTickRequest r2.endpoint r2.method r2.data) fun resp2 =>
              HttpM.ofExcept (fmt args resp1 resp2)) pre

/-- Body field `k: v` whose `undefined` value is dropped by
`JSON.stringify`. -/
def optField (k : String) : Option JVal → List (String × JVal)
  | some v => [(k, v)]
  | none => []

/-- Conditionally assigned body field `if (arg) obj.k = arg`. -/
def truthyField (k : String) (v : Option JVal) : List (String × JVal) :=
  if truthy v then [(k, v.getD .null)] else []

/-- Strict string comparison `v === "s"`. -/
def isStrVal (v : Option JVal) (s : String) : Bool :=
  match v with
  | some (.str t) => t == s
  | _ => false

/-- Abstraction of the date stamp `days` days in the past (used by
`getHabitHistory`). -/
def jsDateStampBack (days : Option JVal) : String :=
  "(date-" ++ jsStringOpt days ++ ")"

/-- `encodeURIComponent`: unreserved characters pass through, everything
else is percent-encoded bytewise (no `+` for spaces, unlike the form
encoder). -/
def encodeURIComponentJs (s : String) : String :=
  String.join (s.toList.map (fun c =>
    if c.isAlphanum || c = Char.ofNat 45 || c = Char.ofNat 95 || c = Char.ofNat 46
        || c = Char.ofNat 33 || c = Char.ofNat 126 || c = Char.ofNat 42
        || c = Char.ofNat 39 || c = Char.ofNat 40 || c = Char.ofNat 41
    then String.mk [c] else String.join ((utf8Bytes c).map percentByte)))

/-- `createProject` (src/index.js:3024). -/
def createProjectSpec : HandlerSpec :=
  .oneReq "Failed to create project: "
    (fun args =>
      .ok ⟨"/project", .POST, some (.obj
        (optField "name" (jlookup args "name")
          ++ [("color", (jlookup args "color").getD (.str "#3498db")),
              ("isOwner", .bool true),
              ("permission", .str
                (if truthy (some ((jlookup args "is_shared").getD (.bool false)))
                 then "members" else "owner"))]))⟩)
    fmtStub

/-- `getTaskDetails` (src/index.js:3181). -/
def getTaskDetailsSpec : HandlerSpec :=
  .oneReq "Failed to get task details: "
    (fun args => .ok ⟨"/task/" ++ jsStringOpt (jlookup args "task_id"), .GET, none⟩)
    fmtStub

/-- `filterTasks` (src/index.js:3206): one `GET /task`; all filtering is
local, after the response. -/
def filterTasksSpec : HandlerSpec :=
  .oneReq "Failed to filter tasks: "
    (fun _ => .ok ⟨"/task", .GET, none⟩)
    fmtStub

/-- `getTags` (src/index.js:3294). -/
def getTagsSpec : HandlerSpec :=
  .oneReq "Failed to get tags: "
    (fun _ => .ok ⟨"/tag", .GET, none⟩)
    fmtStub

/-- `createTag` (src/index.js:3314). -/
def createTagSpec : HandlerSpec :=
  .oneReq "Failed to create tag: "
    (fun args =>
      .ok ⟨"/tag", .POST, some (.obj
        (optField "name" (jlookup args "name")
          ++ [("color", (jlookup args "color").getD (.str "#3498db"))]))⟩)
    fmtStub

/-- `searchTasks` (src/index.js:3338). -/
def searchTasksSpec : HandlerSpec :=
  .oneReq "Failed to search tasks: "
    (fun args =>
      .ok ⟨"/search?q=" ++ encodeURIComponentJs (jsStringOpt (jlookup args "query"))
        ++ "&limit=" ++ jsStringOpt (some ((jlookup args "limit").getD (.num 20))),
        .GET, none⟩)
    fmtStub

/-- `getTodayTasks` (src/index.js:3364); current-date stamps abstracted. -/
def getTodayTasksSpec : HandlerSpec :=
  .oneReq "Failed to get today's tasks: "
    (fun args =>
      .ok ⟨if truthy (some ((jlookup args "include_overdue").getD (.bool true)))
        then "/task?dueBefore=" ++ jsTodayISODate ++ "&dueAfter=" ++ jsYesterdayISODate
        else "/task?dueDate=" ++ jsTodayISODate, .GET, none⟩)
    fmtStub

/-- `getOverdueTasks` (src/index.js:3396). -/
def getOverdueTasksSpec : HandlerSpec :=
  .oneReq "Failed to get overdue tasks: "
    (fun args =>
      .ok ⟨"/task?dueBefore=" ++ jsTodayISODate ++ "&status=0&limit="
        ++ jsStringOpt (some ((jlookup args "limit").getD (.num 50))), .GET, none⟩)
    fmtStub

/-- `getUpcomingTasks` (src/index.js:3424). -/
def getUpcomingTasksSpec : HandlerSpec :=
  .oneReq "Failed to get upcoming tasks: "
    (fun args =>
      .ok ⟨"/task?dueAfter=" ++ jsTodayISODate ++ "&dueBefore="
        ++ jsDateStampOffset (some ((jlookup args "days_ahead").getD (.num 7)))
        ++ "&limit=" ++ jsStringOpt (some ((jlookup args "limit").getD (.num 30))),
        .GET, none⟩)
    fmtStub

/-- `getUserProfile` (src/index.js:3486). -/
def getUserProfileSpec : HandlerSpec :=
  .oneReq "Failed to get user profile: "
    (fun _ => .ok ⟨"/user/profile", .GET, none⟩)
    fmtStub

/-- `getHabits` (src/index.js:3511). -/
def getHabitsSpec : HandlerSpec :=
  .oneReq "Failed to get habits: "
    (fun _ => .ok ⟨"/habit", .GET, none⟩)
    fmtStub

/-- `createHabit` (src/index.js:3539). -/
def createHabitSpec : HandlerSpec :=
  .oneReq "Failed to create habit: "
    (fun args =>
      .ok ⟨"/habit", .POST, some (.obj
        (optField "name" (jlookup args "name")
          ++ [("frequency", (jlookup args "frequency").getD (.str "daily")),
              ("goal", (jlookup args "goal").getD (.num 1)),
              ("color", (jlookup args "color").getD (.str "#3498db")),
              ("createdTime", .str jsNowISO)]
          ++ truthyField "reminderTime" (jlookup args "reminder_time")))⟩)
    fmtStub

/-- `updateHabit` (src/index.js:3573): read-modify-write — the current
habit is fetched, spread into the update body and truthy argument fields
assigned over it. -/
def updateHabitSpec : HandlerSpec :=
  .rmw "Failed to update habit: "
    (fun args => .ok ⟨"/habit/" ++ jsStringOpt (jlookup args "habit_id"), .GET, none⟩)
    (fun args currentHabit =>
      let d0 := jsSpread currentHabit
      let d1 := if truthy (jlookup args "name")
        then jsSetField d0 "name" ((jlookup args "name").getD .null) else d0
      let d2 := if truthy (jlookup args "frequency")
        then jsSetField d1 "frequency" ((jlookup args "frequency").getD .null) else d1
      let d3 := if truthy (jlookup args "goal")
        then jsSetField d2 "goal" ((jlookup args "goal").getD .null) else d2
      let d4 := if truthy (jlookup args "reminder_time")
        then jsSetField d3 "reminderTime" ((jlookup args "reminder_time").getD .null) else d3
      let d5 := if truthy (jlookup args "color")
        then jsSetField d4 "color" ((jlookup args "color").getD .null) else d4
      .ok ⟨"/habit/" ++ jsStringOpt (jlookup args "habit_id"), .PUT, some (.obj d5)⟩)
    fmtStub2

/-- `deleteHabit` (src/index.js:3604). -/
def deleteHabitSpec : HandlerSpec :=
  .oneReq "Failed to delete habit: "
    (fun args => .ok ⟨"/habit/" ++ jsStringOpt (jlookup args "habit_id"), .DELETE, none⟩)
    fmtStub

/-- `checkinHabit` (src/index.js:3622). -/
def checkinHabitSpec : HandlerSpec :=
  .oneReq "Failed to check in habit: "
    (fun args =>
      .ok ⟨"/habit/checkin", .POST, some (.obj
        (optField "habitId" (jlookup args "habit_id")
          ++ [("date", (jsOr (jlookup args "date") (some (.str jsTodayISODate))).getD .null),
              ("count", (jlookup args "count").getD (.num 1)),
              ("timestamp", .str jsNowISO)]))⟩)
    fmtStub

/-- `getHabitHistory` (src/index.js:3652); the computed date window is
abstracted by date-stamp markers. -/
def getHabitHistorySpec : HandlerSpec :=
  .oneReq "Failed to get habit history: "
    (fun args =>
      .ok ⟨"/habit/" ++ jsStringOpt (jlookup args "habit_id") ++ "/history?start="
        ++ jsDateStampBack (some ((jlookup args "days_back").getD (.num 30)))
        ++ "&end=" ++ jsTodayISODate, .GET, none⟩)
    fmtStub

/-- `getHabitStats` (src/index.js:3681). -/
def getHabitStatsSpec : HandlerSpec :=
  .oneReq "Failed to get habit stats: "
    (fun args =>
      .ok ⟨"/habit/" ++ jsStringOpt (jlookup args "habit_id") ++ "/stats", .GET, none⟩)
    fmtStub

/-- `pauseHabit` (src/index.js:3706). -/
def pauseHabitSpec : HandlerSpec :=
  .oneReq "Failed to pause habit: "
    (fun args =>
      .ok ⟨"/habit/" ++ jsStringOpt (jlookup args "habit_id"), .PUT, some (.obj
        ([("paused", .bool true), ("pausedDate", .str jsTodayISODate)]
          ++ truthyField "resumeDate" (jlookup args "resume_date")))⟩)
    fmtStub

/-- `resumeHabit` (src/index.js:3735). -/
def resumeHabitSpec : HandlerSpec :=
  .oneReq "Failed to resume habit: "
    (fun args =>
      .ok ⟨"/habit/" ++ jsStringOpt (jlookup args "habit_id"), .PUT, some (.obj
        [("paused", .bool false), ("resumedDate", .str jsTodayISODate)])⟩)
    fmtStub

/-- `getHabitStreaks` (src/index.js:3760). -/
def getHabitStreaksSpec : HandlerSpec :=
  .oneReq "Failed to get habit streaks: "
    (fun args =>
      .ok ⟨"/habit/" ++ jsStringOpt (jlookup args "habit_id") ++ "/streaks", .GET, none⟩)
    fmtStub

/-- `bulkCheckinHabits` (src/index.js:3785). -/
def bulkCheckinHabitsSpec : HandlerSpec :=
  .oneReq "Failed to bulk check-in habits: "
    (fun args =>
      .ok ⟨"/habit/bulk-checkin", .POST, some (.obj
        (optField "habitIds" (jlookup args "habit_ids")
          ++ [("date", (jsOr (jlookup args "date") (some (.str jsTodayISODate))).getD .null),
              ("timestamp", .str jsNowISO)]))⟩)
    fmtStub

/-- `getHabitCalendar` (src/index.js:3817). -/
def getHabitCalendarSpec : HandlerSpec :=
  .oneReq "Failed to get habit calendar: "
    (fun args =>
      .ok ⟨"/habit/" ++ jsStringOpt (jlookup args "habit_id") ++ "/calendar?year="
        ++ jsStringOpt (some ((jlookup args "year").getD jsCurrentYear))
        ++ (if truthy (jlookup args "month")
            then "&month=" ++ jsStringOpt (jlookup args "month") else ""),
        .GET, none⟩)
    fmtStub

/-- `setHabitGoal` (src/index.js:3848). -/
def setHabitGoalSpec : HandlerSpec :=
  .oneReq "Failed to set habit goal: "
    (fun args =>
      .ok ⟨"/habit/goal", .POST, some (.obj
        (optField "habitId" (jlookup args "habit_id")
          ++ [("goalType", (jlookup args "goal_type").getD (.str "daily"))]
          ++ optField "targetCount" (jlookup args "target_count")
          ++ truthyField "targetStreak" (jlookup args "target_streak")))⟩)
    fmtStub

/-- `getHabitsSummary` (src/index.js:3879). -/
def getHabitsSummarySpec : HandlerSpec :=
  .oneReq "Failed to get habits summary: "
    (fun args =>
      .ok ⟨"/habit/summary?date="
        ++ jsStringOpt (jsOr (jlookup args "date") (some (.str jsTodayISODate))),
        .GET, none⟩)
    fmtStub

/-- `exportHabitData` (src/index.js:3906). -/
def exportHabitDataSpec : HandlerSpec :=
  .oneReq "Failed to export habit data: "
    (fun args =>
      let ps :=
        (if truthy (jlookup args "habit_id")
         then [("habitId", jsStringOpt (jlookup args "habit_id"))] else [])
        ++ (if truthy (jlookup args "start_date")
            then [("startDate", jsStringOpt (jlookup args "start_date"))] else [])
        ++ (if truthy (jlookup args "end_date")
            then [("endDate", jsStringOpt (jlookup args "end_date"))] else [])
        ++ [("format", jsStringOpt (some ((jlookup args "format").getD (.str "json"))))]
      let q := serializeParams ps
      .ok ⟨"/habit/export" ++ (if q = "" then "" else "?" ++ q), .GET, none⟩)
    fmtStub

/-- `updateTag` (src/index.js:3943): read-modify-write. -/
def updateTagSpec : HandlerSpec :=
  .rmw "Failed to update tag: "
    (fun args => .ok ⟨"/tag/" ++ jsStringOpt (jlookup args "tag_id"), .GET, none⟩)
    (fun args currentTag =>
      let d0 := jsSpread currentTag
      let d1 := if truthy (jlookup args "name")
        then jsSetField d0 "name" ((jlookup args "name").getD .null) else d0
      let d2 := if truthy (jlookup args "color")
        then jsSetField d1 "color" ((jlookup args "color").getD .null) else d1
      .ok ⟨"/tag/" ++ jsStringOpt (jlookup args "tag_id"), .PUT, some (.obj d2)⟩)
    fmtStub2

/-- `deleteTag` (src/index.js:3971). -/
def deleteTagSpec : HandlerSpec :=
  .oneReq "Failed to delete tag: "
    (fun args => .ok ⟨"/tag/" ++ jsStringOpt (jlookup args "tag_id"), .DELETE, none⟩)
    fmtStub

/-- `removeTagFromTask` (src/index.js:3989): read-modify-write — the
filtered tag list replaces `tags` in the spread task; `task.tags` on a
`null` task throws. An absent `tag_name` is modelled as `JVal.null`. -/
def removeTagFromTaskSpec : HandlerSpec :=
  .rmw "Failed to remove tag from task: "
    (fun args => .ok ⟨"/task/" ++ jsStringOpt (jlookup args "task_id"), .GET, none⟩)
    (fun args task =>
      match task with
      | .null => .error "Cannot read properties of null (reading 'tags')"
      | t =>
        let tagJ := (jlookup args "tag_name").getD .null
        let cur := match jget t "tags" with
          | some (.arr l) => l
          | _ => []
        let updated := cur.filter (fun v => !jvalSameValue v tagJ)
        .ok ⟨"/task/" ++ jsStringOpt (jlookup args "task_id"), .PUT,
          some (spreadWithTags t updated)⟩)
    fmtStub2

/-- `getTasksByTag` (src/index.js:4019). -/
def getTasksByTagSpec : HandlerSpec :=
  .oneReq "Failed to get tasks by tag: "
    (fun args =>
      .ok ⟨"/task?tags=" ++ encodeURIComponentJs (jsStringOpt (jlookup args "tag_name"))
        ++ "&limit=" ++ jsStringOpt (some ((jlookup args "limit").getD (.num 50))),
        .GET, none⟩)
    fmtStub

/-- `getTagUsageStats` (src/index.js:4047). -/
def getTagUsageStatsSpec : HandlerSpec :=
  .oneReq "Failed to get tag usage stats: "
    (fun args =>
      .ok ⟨"/tag/" ++ jsStringOpt (jlookup args "tag_id") ++ "/stats", .GET, none⟩)
    fmtStub

/-- `mergeTags` (src/index.js:4075). -/
def mergeTagsSpec : HandlerSpec :=
  .oneReq "Failed to merge tags: "
    (fun args =>
      .ok ⟨"/tag/merge", .POST, some (.obj
        (optField "sourceTagId" (jlookup args "source_tag_id")
          ++ optField "targetTagId" (jlookup args "target_tag_id")))⟩)
    fmtStub

/-- `bulkTagOperations` (src/index.js:4101). -/
def bulkTagOperationsSpec : HandlerSpec :=
  .oneReq "Failed to perform bulk tag operations: "
    (fun args =>
      .ok ⟨"/tag/bulk", .POST, some (.obj
        (optField "operation" (jlookup args "operation")
          ++ optField "taskIds" (jlookup args "task_ids")
          ++ optField "tagNames" (jlookup args "tag_names")
          ++ (if isStrVal (jlookup args "operation") "replace"
                && truthy (jlookup args "replace_with")
              then [("replaceWith", (jlookup args "replace_with").getD .null)] else [])))⟩)
    fmtStub

/-- `startFocusSession` (src/index.js:4140). -/
def startFocusSessionSpec : HandlerSpec :=
  .oneReq "Failed to start focus session: "
    (fun args =>
      .ok ⟨"/focus/start", .POST, some (.obj
        ([("type", (jlookup args "session_type").getD (.str "focus")),
          ("duration", (jlookup args "duration").getD (.num 25)),
          ("startTime", .str jsNowISO)]
          ++ truthyField "taskId" (jlookup args "task_id")))⟩)
    fmtStub

/-- `stopFocusSession` (src/index.js:4172). -/
def stopFocusSessionSpec : HandlerSpec :=
  .oneReq "Failed to stop focus session: "
    (fun args =>
      .ok ⟨"/focus/stop", .POST, some (.obj
        (optField "sessionId" (jlookup args "session_id")
          ++ [("endTime", .str jsNowISO)]))⟩)
    fmtStub

/-- `pauseFocusSession` (src/index.js:4200). -/
def pauseFocusSessionSpec : HandlerSpec :=
  .oneReq "Failed to pause focus session: "
    (fun args =>
      .ok ⟨"/focus/pause", .POST, some (.obj
        (optField "sessionId" (jlookup args "session_id")
          ++ [("pauseTime", .str jsNowISO)]))⟩)
    fmtStub

/-- `resumeFocusSession` (src/index.js:4225). -/
def resumeFocusSessionSpec : HandlerSpec :=
  .oneReq "Failed to resume focus session: "
    (fun args =>
      .ok ⟨"/focus/resume", .POST, some (.obj
        (optField "sessionId" (jlookup args "session_id")
          ++ [("resumeTime", .str jsNowISO)]))⟩)
    fmtStub

/-- `getFocusStats` (src/index.js:4250). -/
def getFocusStatsSpec : HandlerSpec :=
  .oneReq "Failed to get focus stats: "
    (fun args =>
      .ok ⟨"/focus/stats?period="
        ++ jsStringOpt (some ((jlookup args "period").getD (.str "today"))), .GET, none⟩)
    fmtStub

/-- `setTaskEstimate` (src/index.js:4278): `pomodoros`/`hours` estimates
are scaled before sending; an `undefined` unscaled estimate is dropped by
`JSON.stringify`, a scaled one becomes `NaN`, serialized `null`. -/
def setTaskEstimateSpec : HandlerSpec :=
  .oneReq "Failed to set task estimate: "
    (fun args =>
      let em := jlookup args "estimated_minutes"
      let et := (jlookup args "estimate_type").getD (.str "minutes")
      let estField :=
        if isStrVal (some et) "pomodoros" then [("estimatedMinutes", jsMulNum em 25)]
        else if isStrVal (some et) "hours" then [("estimatedMinutes", jsMulNum em 60)]
        else optField "estimatedMinutes" em
      .ok ⟨"/task/estimate", .POST, some (.obj
        (optField "taskId" (jlookup args "task_id") ++ estField
          ++ [("estimateType", et), ("setAt", .str jsNowISO)]))⟩)
    fmtStub

/-- `getDailyFocusSummary` (src/index.js:4315). -/
def getDailyFocusSummarySpec : HandlerSpec :=
  .oneReq "Failed to get daily focus summary: "
    (fun args =>
      .ok ⟨"/focus/daily?date="
        ++ jsStringOpt (jsOr (jlookup args "date") (some (.str jsTodayISODate))),
        .GET, none⟩)
    fmtStub

/-- `getFocusHistory` (src/index.js:4347). -/
def getFocusHistorySpec : HandlerSpec :=
  .oneReq "Failed to get focus history: "
    (fun args =>
      .ok ⟨"/focus/history?days="
        ++ jsStringOpt (some ((jlookup args "days_back").getD (.num 30)))
        ++ (if truthy (jlookup args "task_id")
            then "&taskId=" ++ jsStringOpt (jlookup args "task_id") else ""),
        .GET, none⟩)
    fmtStub

/-- `setFocusGoals` (src/index.js:4380). -/
def setFocusGoalsSpec : HandlerSpec :=
  .oneReq "Failed to set focus goals: "
    (fun args =>
      .ok ⟨"/focus/goals", .POST, some (.obj
        ([("type", (jlookup args "goal_type").getD (.str "daily"))]
          ++ optField "targetMinutes" (jlookup args "target_minutes")
          ++ [("setAt", .str jsNowISO)]
          ++ truthyField "targetSessions" (jlookup args "target_sessions")))⟩)
    fmtStub

/-- `getProductivityInsights` (src/index.js:4412). -/
def getProductivityInsightsSpec : HandlerSpec :=
  .oneReq "Failed to get productivity insights: "
    (fun args =>
      .ok ⟨"/analytics/productivity?period="
        ++ jsStringOpt (some ((jlookup args "period").getD (.str "week"))), .GET, none⟩)
    fmtStub

/-- Fallible `expr.map(f)` receiver check: a nullish receiver throws the
property TypeError, a non-array receiver throws
`<expr>.map is not a function`. -/
def jsMapArr (expr : String) (v : Option JVal) : Except String (List JVal) :=
  match v with
  | none => .error "Cannot read properties of undefined (reading 'map')"
  | some .null => .error "Cannot read properties of null (reading 'map')"
  | some (.arr l) => .ok l
  | some _ => .error (expr ++ ".map is not a function")

/-- `getProjectFolders` (src/index.js:4445). -/
def getProjectFoldersSpec : HandlerSpec :=
  .oneReq "Failed to get project folders: "
    (fun _ => .ok ⟨"/project/folder", .GET, none⟩)
    fmtStub

/-- `createProjectFolder` (src/index.js:4471). -/
def createProjectFolderSpec : HandlerSpec :=
  .oneReq "Failed to create project folder: "
    (fun args =>
      .ok ⟨"/project/folder", .POST, some (.obj
        (optField "name" (jlookup args "name")
          ++ [("color", (jlookup args "color").getD (.str "#3498db")),
              ("description", (jlookup args "description").getD (.str ""))]))⟩)
    fmtStub

/-- `moveProjectToFolder` (src/index.js:4501): the `folderId` key is
always present, `null` by default. -/
def moveProjectToFolderSpec : HandlerSpec :=
  .oneReq "Failed to move project to folder: "
    (fun args =>
      .ok ⟨"/project/" ++ jsStringOpt (jlookup args "project_id") ++ "/move", .PUT,
        some (.obj [("folderId", (jlookup args "folder_id").getD .null)])⟩)
    fmtStub

/-- `archiveProject` (src/index.js:4529): a `PUT` with no body. -/
def archiveProjectSpec : HandlerSpec :=
  .oneReq "Failed to archive project: "
    (fun args =>
      .ok ⟨"/project/" ++ jsStringOpt (jlookup args "project_id") ++ "/archive",
        .PUT, none⟩)
    fmtStub

/-- `unarchiveProject` (src/index.js:4553). -/
def unarchiveProjectSpec : HandlerSpec :=
  .oneReq "Failed to unarchive project: "
    (fun args =>
      .ok ⟨"/project/" ++ jsStringOpt (jlookup args "project_id") ++ "/unarchive",
        .PUT, none⟩)
    fmtStub

/-- `duplicateProject` (src/index.js:4577). -/
def duplicateProjectSpec : HandlerSpec :=
  .oneReq "Failed to duplicate project: "
    (fun args =>
      .ok ⟨"/project/" ++ jsStringOpt (jlookup args "project_id") ++ "/duplicate",
        .POST, some (.obj
          (optField "name" (jlookup args "new_name")
            ++ [("includeTasks", (jlookup args "include_tasks").getD (.bool true)),
                ("includeSettings", (jlookup args "include_settings").getD (.bool true))]))⟩)
    fmtStub

/-- `getProjectStats` (src/index.js:4611). -/
def getProjectStatsSpec : HandlerSpec :=
  .oneReq "Failed to get project stats: "
    (fun args =>
      .ok ⟨"/project/" ++ jsStringOpt (jlookup args "project_id") ++ "/stats",
        .GET, none⟩)
    fmtStub

/-- `setProjectColor` (src/index.js:4647). -/
def setProjectColorSpec : HandlerSpec :=
  .oneReq "Failed to set project color: "
    (fun args =>
      .ok ⟨"/project/" ++ jsStringOpt (jlookup args "project_id"), .PUT,
        some (.obj (optField "color" (jlookup args "color")))⟩)
    fmtStub

/-- `reorderProjects` (src/index.js:4673): `project_orders.map` runs
before the request and throws on a missing or non-array argument, and per
element on a nullish entry. -/
def reorderProjectsSpec : HandlerSpec :=
  .oneReq "Failed to reorder projects: "
    (fun args => do
      let os ← jsMapArr "project_orders" (jlookup args "project_orders")
      let orders ← os.mapM (fun o => do
        let pid ← jsField (some o) "project_id"
        let pos ← jsField (some o) "position"
        .ok (JVal.obj (optField "projectId" pid ++ optField "sortOrder" pos)))
      .ok ⟨"/project/reorder", .PUT, some (.obj [("orders", .arr orders)])⟩)
    fmtStub

/-- `getProjectTemplates` (src/index.js:4706). -/
def getProjectTemplatesSpec : HandlerSpec :=
  .oneReq "Failed to get project templates: "
    (fun _ => .ok ⟨"/project/templates", .GET, none⟩)
    fmtStub

/-- `createProjectFromTemplate` (src/index.js:4737). -/
def createProjectFromTemplateSpec : HandlerSpec :=
  .oneReq "Failed to create project from template: "
    (fun args =>
      .ok ⟨"/project/from-template", .POST, some (.obj
        (optField "templateId" (jlookup args "template_id")
          ++ optField "name" (jlookup args "project_name")
          ++ [("customizations", (jlookup args "customize_settings").getD (.obj []))]))⟩)
    fmtStub

/-- `exportProject` (src/index.js:4772). -/
def exportProjectSpec : HandlerSpec :=
  .oneReq "Failed to export project: "
    (fun args =>
      .ok ⟨"/project/" ++ jsStringOpt (jlookup args "project_id") ++ "/export",
        .POST, some (.obj
          [("format", (jlookup args "format").getD (.str "json")),
           ("includeCompleted", (jlookup args "include_completed").getD (.bool true)),
           ("includeAttachments", (jlookup args "include_attachments").getD (.bool false))])⟩)
    fmtStub

/-- `shareProject` (src/index.js:4812). -/
def shareProjectSpec : HandlerSpec :=
  .oneReq "Failed to share project: "
    (fun args =>
      .ok ⟨"/project/" ++ jsStringOpt (jlookup args "project_id") ++ "/share",
        .POST, some (.obj
          (optField "emails" (jlookup args "emails")
            ++ [("permissionLevel", (jlookup args "permission_level").getD (.str "edit")),
                ("invitationMessage", (jlookup args "message").getD (.str ""))]))⟩)
    fmtStub

/-- `getSharedProjects` (src/index.js:4845). -/
def getSharedProjectsSpec : HandlerSpec :=
  .oneReq "Failed to get shared projects: "
    (fun args =>
      .ok ⟨"/project/shared?includeOwned="
        ++ jsStringOpt (some ((jlookup args "include_owned").getD (.bool true)))
        ++ "&includeReceived="
        ++ jsStringOpt (some ((jlookup args "include_received").getD (.bool true))),
        .GET, none⟩)
    fmtStub

/-- `inviteCollaborator` (src/index.js:4895). -/
def inviteCollaboratorSpec : HandlerSpec :=
  .oneReq "Failed to invite collaborator: "
    (fun args =>
      .ok ⟨"/project/" ++ jsStringOpt (jlookup args "project_id") ++ "/invite",
        .POST, some (.obj
          (optField "email" (jlookup args "email")
            ++ [("role", (jlookup args "role").getD (.str "member")),
                ("personalMessage", (jlookup args "personal_message").getD (.str ""))]))⟩)
    fmtStub

/-- `removeCollaborator` (src/index.js:4933). -/
def removeCollaboratorSpec : HandlerSpec :=
  .oneReq "Failed to remove collaborator: "
    (fun args =>
      .ok ⟨"/project/" ++ jsStringOpt (jlookup args "project_id") ++ "/collaborator/"
        ++ jsStringOpt (jlookup args "user_id"), .DELETE, none⟩)
    fmtStub

/-- `assignTask` (src/index.js:4961): `undefined` `dueDate`/`priority`
are dropped by `JSON.stringify`. -/
def assignTaskSpec : HandlerSpec :=
  .oneReq "Failed to assign task: "
    (fun args =>
      .ok ⟨"/task/" ++ jsStringOpt (jlookup args "task_id") ++ "/assign", .PUT,
        some (.obj
          (optField "assigneeId" (jlookup args "assignee_id")
            ++ optField "dueDate" (jlookup args "due_date")
            ++ optField "priority" (jlookup args "priority")
            ++ [("sendNotification", (jlookup args "notification").getD (.bool true))]))⟩)
    fmtStub

/-- `getTaskAssignees` (src/index.js:4999). -/
def getTaskAssigneesSpec : HandlerSpec :=
  .oneReq "Failed to get task assignees: "
    (fun args =>
      .ok ⟨"/task/" ++ jsStringOpt (jlookup args "task_id") ++ "/assignees",
        .GET, none⟩)
    fmtStub

/-- `addTaskComment` (src/index.js:5033). -/
def addTaskCommentSpec : HandlerSpec :=
  .oneReq "Failed to add task comment: "
    (fun args =>
      .ok ⟨"/task/" ++ jsStringOpt (jlookup args "task_id") ++ "/comment", .POST,
        some (.obj
          (optField "content" (jlookup args "comment")
            ++ [("mentions", (jlookup args "mention_users").getD (.arr [])),
                ("isPrivate", (jlookup args "is_private").getD (.bool false))]))⟩)
    fmtStub

/-- `Array.prototype.slice(0, limit)` with a JavaScript end index:
negative counts from the end, `true` coerces to 1, other non-numbers to 0
(numeric-string coercion of a string limit is not modelled). -/
def jsSliceEnd (l : List JVal) (limit : JVal) : List JVal :=
  match limit with
  | .num n => if n < 0 then l.take (l.length - Int.toNat (-n)) else l.take (Int.toNat n)
  | .bool true => l.take 1
  | _ => []

/-- One entry of the `getTeamActivity` feed (src/index.js:5102-5108):
every icon in `activityTypeIcons` is the empty string, and the unguarded
`activity.type.replace` throws on a nullish activity or a nullish or
non-string `type`. -/
def activityEntry (activity : JVal) : Except String String :=
  match activity with
  | .null => .error "Cannot read properties of null (reading 'type')"
  | a =>
    match jget a "type" with
    | none => .error "Cannot read properties of undefined (reading 'replace')"
    | some .null => .error "Cannot read properties of null (reading 'replace')"
    | some (.str s) =>
      .ok (" **" ++ (jsReplaceFirst s "_" " ").toUpper ++ "**
"
        ++ "    By: " ++ jsStringOpt (jsOr (jget a "userName") (jget a "userId")) ++ "
"
        ++ "    Item: " ++ jsStringOpt (jsOr (jget a "itemName") (jget a "itemId")) ++ "
"
        ++ "    When: " ++ (if truthy (jget a "timestamp")
            then jsDateLocale (jget a "timestamp") else "N/A") ++ "
"
        ++ "   " ++ (if truthy (jget a "description")
            then " Details: " ++ jsStringOpt (jget a "description") else ""))
    | some _ => .error "activity.type.replace is not a function"

/-- `activities.filter(a => a.type === t).length` of the activity
summary: the element access `a.type` throws on a nullish element. -/
def countActivityType (l : List JVal) (t : String) : Except String Nat := do
  let flags ← l.mapM (fun a =>
    match a with
    | .null => .error "Cannot read properties of null (reading 'type')"
    | x => .ok (isStrVal (jget x "type") t))
  .ok (flags.count true)

/-- Response formatting of `getTeamActivity` (src/index.js:5093-5125),
embedded faithfully: `activities.length` throws on a `null` response, the
entry formatter throws on entries without a string `type`, and the
summary `filter` calls throw on a non-array response. -/
def fmtTeamActivity (args : Args) (activities : JVal) : Except String ToolResult := do
  match activities with
  | .null => .error "Cannot read properties of null (reading 'length')"
  | acts =>
    let lenVal : Option JVal :=
      match acts with
      | .arr l => some (.num l.length)
      | .str s => some (.num s.length)
      | _ => none
    let filterTxt ← if truthy (jlookup args "activity_types")
      then jsJoin "activity_types" (jlookup args "activity_types") ", "
      else pure "All types"
    let header := " **Team Activity Feed** ("
      ++ (if truthy lenVal then jsStringOpt lenVal else "0")
      ++ " activities)

 **Project**: " ++ jsStringOpt (jlookup args "project_id")
      ++ "
 **Retrieved**: " ++ jsNowLocale
      ++ "
 **Filter**: " ++ filterTxt ++ "

"
    let body ← if truthyLen (some acts) then
        match acts with
        | .arr l => do
          let entries ← (jsSliceEnd l ((jlookup args "limit").getD (.num 50))).mapM
            activityEntry
          pure (" **Recent Activities**:
" ++ String.intercalate "

" entries)
        | _ => .error "activities.slice(...).map is not a function"
      else
        pure " **No recent activity found**

This project has no recorded team activities yet."
    match acts with
    | .arr l => do
      let c1 ← countActivityType l "task_created"
      let c2 ← countActivityType l "task_completed"
      let c3 ← countActivityType l "task_assigned"
      let c4 ← countActivityType l "comment_added"
      .ok ⟨header ++ body ++ "

 **Activity Summary**:
"
        ++ " Tasks Created: " ++ toString c1 ++ "
"
        ++ " Tasks Completed: " ++ toString c2 ++ "
"
        ++ " Assignments Made: " ++ toString c3 ++ "
"
        ++ " Comments Added: " ++ toString c4 ++ "

"
        ++ " **Team Insights**:
 Monitor project momentum
"
        ++ " Identify active contributors
 Track collaboration patterns
"
        ++ " Celebrate team achievements"⟩
    | _ => .error "activities.filter is not a function"

/-- `getTeamActivity` (src/index.js:5072): `limit.toString()` throws on a
`null` limit, and a truthy nonempty-length non-array `activity_types`
throws at `.join` before the request. -/
def getTeamActivitySpec : HandlerSpec :=
  .oneReq "Failed to get team activity: "
    (fun args => do
      let limStr ← jsToStr (some ((jlookup args "limit").getD (.num 50)))
      let ps ← if truthy (jlookup args "activity_types")
          && truthyLen (jlookup args "activity_types") then do
          let t ← jsJoin "activity_types" (jlookup args "activity_types") ","
          pure [("limit", limStr), ("types", t)]
        else pure [("limit", limStr)]
      .ok ⟨"/project/" ++ jsStringOpt (jlookup args "project_id") ++ "/activity?"
        ++ serializeParams ps, .GET, none⟩)
    fmtTeamActivity

/-- `setProjectPermissions` (src/index.js:5131). -/
def setProjectPermissionsSpec : HandlerSpec :=
  .oneReq "Failed to set project permissions: "
    (fun args =>
      .ok ⟨"/project/" ++ jsStringOpt (jlookup args "project_id") ++ "/permissions",
        .PUT, some (.obj
          (optField "permissions" (jlookup args "permissions")
            ++ [("applyToExisting", (jlookup args "apply_to_existing").getD (.bool false))]))⟩)
    fmtStub

/-- `getCollaborationStats` (src/index.js:5172). -/
def getCollaborationStatsSpec : HandlerSpec :=
  .oneReq "Failed to get collaboration stats: "
    (fun args =>
      .ok ⟨"/project/" ++ jsStringOpt (jlookup args "project_id")
        ++ "/collaboration-stats?period="
        ++ jsStringOpt (some ((jlookup args "time_period").getD (.str "month"))),
        .GET, none⟩)
    fmtStub

/-- `bulkAssignTasks` (src/index.js:5225): `assignments.map` runs before
the request and throws on a missing or non-array argument, and per
element on a nullish entry. -/
def bulkAssignTasksSpec : HandlerSpec :=
  .oneReq "Failed to bulk assign tasks: "
    (fun args => do
      let as ← jsMapArr "assignments" (jlookup args "assignments")
      let mapped ← as.mapM (fun a => do
        let tid ← jsField (some a) "task_id"
        let aid ← jsField (some a) "assignee_id"
        let dd ← jsField (some a) "due_date"
        .ok (JVal.obj (optField "taskId" tid ++ optField "assigneeId" aid
          ++ optField "dueDate" dd)))
      .ok ⟨"/task/bulk-assign", .POST, some (.obj
        [("assignments", .arr mapped),
         ("notifyAssignees", (jlookup args "notify_assignees").getD (.bool true))])⟩)
    fmtStub

/-- `exportTeamReport` (src/index.js:5287): an `undefined` `dateRange` is
dropped by `JSON.stringify`. -/
def exportTeamReportSpec : HandlerSpec :=
  .oneReq "Failed to export team report: "
    (fun args =>
      .ok ⟨"/project/" ++ jsStringOpt (jlookup args "project_id")
        ++ "/export/team-report", .POST, some (.obj
          ([("reportType", (jlookup args "report_type").getD (.str "productivity"))]
            ++ optField "dateRange" (jlookup args "date_range")
            ++ [("format", (jlookup args "format").getD (.str "pdf"))]))⟩)
    fmtStub

/-- `getCalendarEvents` (src/index.js:5349): the `?` is appended even
when every parameter is absent. -/
def getCalendarEventsSpec : HandlerSpec :=
  .oneReq "Failed to get calendar events: "
    (fun args =>
      let ps :=
        (if truthy (jlookup args "start_date")
         then [("startDate", jsStringOpt (jlookup args "start_date"))] else [])
        ++ (if truthy (jlookup args "end_date")
            then [("endDate", jsStringOpt (jlookup args "end_date"))] else [])
        ++ (if truthy (jlookup args "calendar_id")
            then [("calendarId", jsStringOpt (jlookup args "calendar_id"))] else [])
      .ok ⟨"/calendar/events?" ++ serializeParams ps, .GET, none⟩)
    fmtStub

/-- `createCalendarEvent` (src/index.js:5399). -/
def createCalendarEventSpec : HandlerSpec :=
  .oneReq "Failed to create calendar event: "
    (fun args =>
      .ok ⟨"/calendar/event", .POST, some (.obj
        (optField "title" (jlookup args "title")
          ++ optField "startTime" (jlookup args "start_time")
          ++ optField "endTime" (jlookup args "end_time")
          ++ optField "description" (jlookup args "description")
          ++ optField "location" (jlookup args "location")
          ++ [("reminderMinutes", (jlookup args "reminder_minutes").getD (.num 15))]))⟩)
    fmtStub

/-- `syncWithGoogleCalendar` (src/index.js:5450). -/
def syncWithGoogleCalendarSpec : HandlerSpec :=
  .oneReq "Failed to sync with Google Calendar: "
    (fun args =>
      .ok ⟨"/calendar/sync/google", .POST, some (.obj
        (optField "googleCalendarId" (jlookup args "google_calendar_id")
          ++ [("syncDirection", (jlookup args "sync_direction").getD (.str "bidirectional")),
              ("dateRangeDays", (jlookup args "date_range_days").getD (.num 30))]))⟩)
    fmtStub

/-- `syncWithOutlook` (src/index.js:5500). -/
def syncWithOutlookSpec : HandlerSpec :=
  .oneReq "Failed to sync with Outlook: "
    (fun args =>
      .ok ⟨"/calendar/sync/outlook", .POST, some (.obj
        (optField "outlookCalendarId" (jlookup args "outlook_calendar_id")
          ++ [("syncDirection", (jlookup args "sync_direction").getD (.str "bidirectional")),
              ("includeMeetings", (jlookup args "include_meetings").getD (.bool true))]))⟩)
    fmtStub

/-- `getCalendarView` (src/index.js:5555): `include_tasks.toString()`
throws on a `null` argument before the request. -/
def getCalendarViewSpec : HandlerSpec :=
  .oneReq "Failed to get calendar view: "
    (fun args => do
      let it ← jsToStr (some ((jlookup args "include_tasks").getD (.bool true)))
      let ps :=
        [("startDate", jsStringOpt (jsOr (jlookup args "start_date")
            (some (.str jsTodayISODate)))),
         ("endDate", jsStringOpt (jsOr (jlookup args "end_date")
            (some (.str (jsDateStampOffset (some (.num 7))))))),
         ("viewType", jsStringOpt (some ((jlookup args "view_type").getD (.str "week")))),
         ("includeTasks", it)]
      .ok ⟨"/calendar/view?" ++ serializeParams ps, .GET, none⟩)
    fmtStub

/-- `convertTaskToEvent` (src/index.js:5625). -/
def convertTaskToEventSpec : HandlerSpec :=
  .oneReq "Failed to convert task to event: "
    (fun args =>
      .ok ⟨"/task/" ++ jsStringOpt (jlookup args "task_id") ++ "/convert-to-event",
        .POST, some (.obj
          ([("eventDurationMinutes", (jlookup args "event_duration_minutes").getD (.num 60))]
            ++ optField "startTime" (jlookup args "start_time")
            ++ [("createReminder", (jlookup args "create_reminder").getD (.bool true))]))⟩)
    fmtStub

/-- `getScheduleConflicts` (src/index.js:5682): the two `.toString()`
calls throw on `null` arguments before the request. -/
def getScheduleConflictsSpec : HandlerSpec :=
  .oneReq "Failed to get schedule conflicts: "
    (fun args => do
      let it ← jsToStr (some ((jlookup args "include_tasks").getD (.bool true)))
      let th ← jsToStr (some ((jlookup args "conflict_threshold_minutes").getD (.num 15)))
      let ps :=
        [("startDate", jsStringOpt (jsOr (jlookup args "start_date")
            (some (.str jsTodayISODate)))),
         ("endDate", jsStringOpt (jsOr (jlookup args "end_date")
            (some (.str (jsDateStampOffset (some (.num 7))))))),
         ("includeTasks", it), ("thresholdMinutes", th)]
      .ok ⟨"/calendar/conflicts?" ++ serializeParams ps, .GET, none⟩)
    fmtStub

/-- `bulkCalendarImport` (src/index.js:5753). -/
def bulkCalendarImportSpec : HandlerSpec :=
  .oneReq "Failed to bulk import calendar: "
    (fun args =>
      .ok ⟨"/calendar/bulk-import", .POST, some (.obj
        (optField "calendarData" (jlookup args "calendar_data")
          ++ optField "importSource" (jlookup args "import_source")
          ++ [("mergeDuplicates", (jlookup args "merge_duplicates").getD (.bool true)),
              ("createNewCalendar", (jlookup args "create_new_calendar").getD (.bool false))]))⟩)
    fmtStub

/-- `getTaskNotes` (src/index.js:5825): `include_replies.toString()`
throws on a `null` argument before the request. -/
def getTaskNotesSpec : HandlerSpec :=
  .oneReq "Failed to get task notes: "
    (fun args => do
      let ir ← jsToStr (some ((jlookup args "include_replies").getD (.bool true)))
      let ps := [("includeReplies", ir),
        ("sortOrder", jsStringOpt (some ((jlookup args "sort_order").getD (.str "newest"))))]
      .ok ⟨"/task/" ++ jsStringOpt (jlookup args "task_id") ++ "/notes?"
        ++ serializeParams ps, .GET, none⟩)
    fmtStub

/-- `addTaskNote` (src/index.js:5879). -/
def addTaskNoteSpec : HandlerSpec :=
  .oneReq "Failed to add task note: "
    (fun args =>
      .ok ⟨"/task/" ++ jsStringOpt (jlookup args "task_id") ++ "/note", .POST,
        some (.obj
          (optField "content" (jlookup args "note_content")
            ++ [("type", (jlookup args "note_type").getD (.str "comment")),
                ("isPrivate", (jlookup args "is_private").getD (.bool false))]))⟩)
    fmtStub

/-- `updateTaskNote` (src/index.js:5934). -/
def updateTaskNoteSpec : HandlerSpec :=
  .oneReq "Failed to update task note: "
    (fun args =>
      .ok ⟨"/task/" ++ jsStringOpt (jlookup args "task_id") ++ "/note/"
        ++ jsStringOpt (jlookup args "note_id"), .PUT,
        some (.obj (optField "content" (jlookup args "new_content")))⟩)
    fmtStub

/-- `deleteTaskNote` (src/index.js:5983): the note is fetched for the
deletion summary before the `DELETE` is issued. -/
def deleteTaskNoteSpec : HandlerSpec :=
  .rmw "Failed to delete task note: "
    (fun args =>
      .ok ⟨"/task/" ++ jsStringOpt (jlookup args "task_id") ++ "/note/"
        ++ jsStringOpt (jlookup args "note_id"), .GET, none⟩)
    (fun args _ =>
      .ok ⟨"/task/" ++ jsStringOpt (jlookup args "task_id") ++ "/note/"
        ++ jsStringOpt (jlookup args "note_id"), .DELETE, none⟩)
    fmtStub2

/-- `uploadTaskAttachment` (src/index.js:6029). -/
def uploadTaskAttachmentSpec : HandlerSpec :=
  .oneReq "Failed to upload task attachment: "
    (fun args =>
      .ok ⟨"/task/" ++ jsStringOpt (jlookup args "task_id") ++ "/attachment", .POST,
        some (.obj
          (optField "fileData" (jlookup args "file_data")
            ++ optField "fileName" (jlookup args "file_name")
            ++ optField "fileType" (jlookup args "file_type")
            ++ optField "description" (jlookup args "description")))⟩)
    fmtStub

/-- `getTaskAttachments` (src/index.js:6098). -/
def getTaskAttachmentsSpec : HandlerSpec :=
  .oneReq "Failed to get task attachments: "
    (fun args =>
      let ps := [("filter", jsStringOpt
        (some ((jlookup args "file_type_filter").getD (.str "all"))))]
      .ok ⟨"/task/" ++ jsStringOpt (jlookup args "task_id") ++ "/attachments?"
        ++ serializeParams ps, .GET, none⟩)
    fmtStub

/-- `downloadTaskAttachment` (src/index.js:6175). -/
def downloadTaskAttachmentSpec : HandlerSpec :=
  .oneReq "Failed to download task attachment: "
    (fun args =>
      let ps := [("format", jsStringOpt
        (some ((jlookup args "download_format").getD (.str "original"))))]
      .ok ⟨"/task/" ++ jsStringOpt (jlookup args "task_id") ++ "/attachment/"
        ++ jsStringOpt (jlookup args "attachment_id") ++ "/download?"
        ++ serializeParams ps, .GET, none⟩)
    fmtStub

/-- `deleteTaskAttachment` (src/index.js:6238): the attachment is fetched
for the deletion summary before the `DELETE` is issued. -/
def deleteTaskAttachmentSpec : HandlerSpec :=
  .rmw "Failed to delete task attachment: "
    (fun args =>
      .ok ⟨"/task/" ++ jsStringOpt (jlookup args "task_id") ++ "/attachment/"
        ++ jsStringOpt (jlookup args "attachment_id"), .GET, none⟩)
    (fun args _ =>
      .ok ⟨"/task/" ++ jsStringOpt (jlookup args "task_id") ++ "/attachment/"
        ++ jsStringOpt (jlookup args "attachment_id"), .DELETE, none⟩)
    fmtStub2

/-- `getTaskTemplates` (src/index.js:6301): `include_shared.toString()`
throws on a `null` argument before the request. -/
def getTaskTemplatesSpec : HandlerSpec :=
  .oneReq "Failed to get task templates: "
    (fun args => do
      let is_ ← jsToStr (some ((jlookup args "include_shared").getD (.bool true)))
      let ps := [("includeShared", is_),
          ("sortBy", jsStringOpt (some ((jlookup args "sort_by").getD (.str "usage"))))]
        ++ (if truthy (jlookup args "category")
            then [("category", jsStringOpt (jlookup args "category"))] else [])
      .ok ⟨"/task/templates?" ++ serializeParams ps, .GET, none⟩)
    fmtStub

/-- `createTaskTemplate` (src/index.js:6364). -/
def createTaskTemplateSpec : HandlerSpec :=
  .oneReq "Failed to create task template: "
    (fun args =>
      .ok ⟨"/task/template", .POST, some (.obj
        (optField "name" (jlookup args "template_name")
          ++ optField "description" (jlookup args "template_description")
          ++ optField "taskStructure" (jlookup args "task_data")
          ++ [("category", (jlookup args "category").getD (.str "general")),
              ("isShared", (jlookup args "is_shared").getD (.bool false))]))⟩)
    fmtStub

/-- `updateTaskTemplate` (src/index.js:6427): only truthy argument fields
are assigned into the update body. -/
def updateTaskTemplateSpec : HandlerSpec :=
  .oneReq "Failed to update task template: "
    (fun args =>
      .ok ⟨"/task/template/" ++ jsStringOpt (jlookup args "template_id"), .PUT,
        some (.obj
          (truthyField "name" (jlookup args "template_name")
            ++ truthyField "description" (jlookup args "template_description")
            ++ truthyField "taskStructure" (jlookup args "task_data")
            ++ truthyField "category" (jlookup args "category")))⟩)
    fmtStub

/-- `deleteTaskTemplate` (src/index.js:6486): the template is fetched for
the deletion summary before the `DELETE` is issued. -/
def deleteTaskTemplateSpec : HandlerSpec :=
  .rmw "Failed to delete task template: "
    (fun args =>
      .ok ⟨"/task/template/" ++ jsStringOpt (jlookup args "template_id"), .GET, none⟩)
    (fun args _ =>
      .ok ⟨"/task/template/" ++ jsStringOpt (jlookup args "template_id"), .DELETE, none⟩)
    fmtStub2

/-- `createTaskFromTemplate` (src/index.js:6542). -/
def createTaskFromTemplateSpec : HandlerSpec :=
  .oneReq "Failed to create task from template: "
    (fun args =>
      .ok ⟨"/task/from-template", .POST, some (.obj
        (optField "templateId" (jlookup args "template_id")
          ++ optField "projectId" (jlookup args "project_id")
          ++ [("customizations", (jlookup args "customizations").getD (.obj [])),
              ("quantity", (jlookup args "create_multiple").getD (.num 1))]))⟩)
    fmtStub

/-- `setRecurringTask` (src/index.js:6621). -/
def setRecurringTaskSpec : HandlerSpec :=
  .oneReq "Failed to set recurring task: "
    (fun args =>
      .ok ⟨"/task/" ++ jsStringOpt (jlookup args "task_id") ++ "/recurrence", .POST,
        some (.obj (optField "pattern" (jlookup args "recurrence_pattern")))⟩)
    fmtStub

/-- `getRecurringTasks` (src/index.js:6701). -/
def getRecurringTasksSpec : HandlerSpec :=
  .oneReq "Failed to get recurring tasks: "
    (fun args =>
      let ps := [("frequencyFilter",
          jsStringOpt (some ((jlookup args "frequency_filter").getD (.str "all")))),
          ("status", jsStringOpt (some ((jlookup args "status").getD (.str "active"))))]
        ++ (if truthy (jlookup args "project_id")
            then [("projectId", jsStringOpt (jlookup args "project_id"))] else [])
      .ok ⟨"/task/recurring?" ++ serializeParams ps, .GET, none⟩)
    fmtStub

/-- `pauseRecurringTask` (src/index.js:6784). -/
def pauseRecurringTaskSpec : HandlerSpec :=
  .oneReq "Failed to pause recurring task: "
    (fun args =>
      .ok ⟨"/task/" ++ jsStringOpt (jlookup args "task_id") ++ "/recurrence/pause",
        .PUT, some (.obj
          (optField "reason" (jlookup args "pause_reason")
            ++ optField "resumeDate" (jlookup args "resume_date")))⟩)
    fmtStub

/-- `bulkCreateFromTemplate` (src/index.js:6856). -/
def bulkCreateFromTemplateSpec : HandlerSpec :=
  .oneReq "Failed to bulk create from template: "
    (fun args =>
      .ok ⟨"/task/bulk-from-template", .POST, some (.obj
        (optField "templateId" (jlookup args "template_id")
          ++ optField "tasks" (jlookup args "bulk_data")
          ++ [("applyDefaults", (jlookup args "apply_template_defaults").getD (.bool true)),
              ("notifyAssignees", (jlookup args "notify_assignees").getD (.bool true))]))⟩)
    fmtStub

/-- Fallible `expr.forEach(f)` receiver check, as `jsMapArr` but with the
`forEach` member named in the TypeError. -/
def jsForEachArr (expr : String) (v : Option JVal) : Except String (List JVal) :=
  match v with
  | none => .error "Cannot read properties of undefined (reading 'forEach')"
  | some .null => .error "Cannot read properties of null (reading 'forEach')"
  | some (.arr l) => .ok l
  | some _ => .error (expr ++ ".forEach is not a function")

/-- `Object.entries`: own enumerable fields of an object, index entries of
an array or a string, nothing for other primitives. -/
def jsEntries : JVal → List (String × JVal)
  | .obj fs => fs
  | .arr l => (List.range l.length).zip l |>.map (fun p => (toString p.1, p.2))
  | .str s => (List.range s.length).zip s.toList
      |>.map (fun p => (toString p.1, .str (String.mk [p.2])))
  | _ => []

/-- `getProductivityReport` (src/index.js:6955): a truthy
`project_ids?.length` leads to a `forEach` that throws on a non-array. -/
def getProductivityReportSpec : HandlerSpec :=
  .oneReq "Failed to get productivity report: "
    (fun args => do
      let base :=
        [("range", jsStringOpt (some ((jlookup args "time_range").getD (.str "month")))),
         ("habits", jsStringOpt (some ((jlookup args "include_habits").getD (.bool true)))),
         ("focus", jsStringOpt (some ((jlookup args "include_focus").getD (.bool true))))]
        ++ (if truthy (jlookup args "start_date")
            then [("start", jsStringOpt (jlookup args "start_date"))] else [])
        ++ (if truthy (jlookup args "end_date")
            then [("end", jsStringOpt (jlookup args "end_date"))] else [])
      let pids ← if truthyLen (jlookup args "project_ids") then do
          let l ← jsForEachArr "project_ids" (jlookup args "project_ids")
          pure (l.map (fun v => ("projects", jsString v)))
        else pure []
      .ok ⟨"/analytics/productivity?" ++ serializeParams (base ++ pids), .GET, none⟩)
    fmtStub

/-- `getCompletionTrends` (src/index.js:7043): `duration.toString()`
throws on `null`, a truthy `tag_filter?.length` leads to a `forEach`
that throws on a non-array. -/
def getCompletionTrendsSpec : HandlerSpec :=
  .oneReq "Failed to get completion trends: "
    (fun args => do
      let dur ← jsToStr (some ((jlookup args "duration").getD (.num 12)))
      let base :=
        [("period", jsStringOpt (some ((jlookup args "period").getD (.str "weekly")))),
         ("duration", dur),
         ("predictions", jsStringOpt
           (some ((jlookup args "include_predictions").getD (.bool true))))]
        ++ (if truthy (jlookup args "project_id")
            then [("project", jsStringOpt (jlookup args "project_id"))] else [])
      let tags ← if truthyLen (jlookup args "tag_filter") then do
          let l ← jsForEachArr "tag_filter" (jlookup args "tag_filter")
          pure (l.map (fun v => ("tags", jsString v)))
        else pure []
      .ok ⟨"/analytics/trends?" ++ serializeParams (base ++ tags), .GET, none⟩)
    fmtStub

/-- `getTimeTrackingReport` (src/index.js:7136). -/
def getTimeTrackingReportSpec : HandlerSpec :=
  .oneReq "Failed to get time tracking report: "
    (fun args =>
      let ps :=
        [("period", jsStringOpt (some ((jlookup args "time_period").getD (.str "month")))),
         ("breakdown", jsStringOpt (some ((jlookup args "breakdown_by").getD (.str "project")))),
         ("estimates", jsStringOpt (some ((jlookup args "include_estimates").getD (.bool true)))),
         ("focus_only", jsStringOpt
           (some ((jlookup args "focus_sessions_only").getD (.bool false)))),
         ("format", jsStringOpt (some ((jlookup args "export_format").getD (.str "detailed"))))]
      .ok ⟨"/analytics/time-tracking?" ++ serializeParams ps, .GET, none⟩)
    fmtStub

/-- `getGoalProgress` (src/index.js:7233): for a truthy `target_metrics`,
`Object.entries` values are appended as `target_<key>` after a fallible
`.toString()`. -/
def getGoalProgressSpec : HandlerSpec :=
  .oneReq "Failed to get goal progress: "
    (fun args => do
      let base :=
        [("type", jsStringOpt (jlookup args "goal_type")),
         ("frame", jsStringOpt (some ((jlookup args "time_frame").getD (.str "monthly")))),
         ("recommendations", jsStringOpt
           (some ((jlookup args "include_recommendations").getD (.bool true))))]
      let targets ← if truthy (jlookup args "target_metrics") then
          (jsEntries ((jlookup args "target_metrics").getD .null)).mapM (fun p => do
            let v ← jsToStr (some p.2)
            pure ("target_" ++ p.1, v))
        else pure []
      .ok ⟨"/analytics/goals?" ++ serializeParams (base ++ targets), .GET, none⟩)
    fmtStub

/-- `exportAnalyticsData` (src/index.js:7352): `data_types.join` throws
on a non-array, and `date_range.start_date` throws when `date_range` is
absent (it has no default). -/
def exportAnalyticsDataSpec : HandlerSpec :=
  .oneReq "Failed to export analytics data: "
    (fun args => do
      let types ← jsJoin "data_types" (some ((jlookup args "data_types").getD
        (.arr [.str "tasks", .str "habits", .str "focus_sessions"]))) ","
      let sd ← jsField (jlookup args "date_range") "start_date"
      let ed ← jsField (jlookup args "date_range") "end_date"
      let ps :=
        [("types", types), ("start", jsStringOpt sd), ("end", jsStringOpt ed),
         ("format", jsStringOpt (some ((jlookup args "format").getD (.str "json")))),
         ("metadata", jsStringOpt (some ((jlookup args "include_metadata").getD (.bool true)))),
         ("privacy", jsStringOpt (some ((jlookup args "privacy_filter").getD (.bool false))))]
      .ok ⟨"/analytics/export?" ++ serializeParams ps, .GET, none⟩)
    fmtStub

/-- `getWeeklySummary` (src/index.js:7465): `week_offset.toString()` and
`include_sections.join` are fallible; `personalization?.tone` and
`personalization?.focus_areas` append conditionally. -/
def getWeeklySummarySpec : HandlerSpec :=
  .oneReq "Failed to get weekly summary: "
    (fun args => do
      let off ← jsToStr (some ((jlookup args "week_offset").getD (.num 0)))
      let sections ← jsJoin "include_sections" (some ((jlookup args "include_sections").getD
        (.arr [.str "tasks", .str "habits", .str "focus", .str "achievements"]))) ","
      let base :=
        [("offset", off), ("sections", sections),
         ("compare", jsStringOpt (some ((jlookup args "compare_previous").getD (.bool true))))]
      let tone :=
        if truthy (jsFieldOpt (jlookup args "personalization") "tone")
        then [("tone", jsStringOpt (jsFieldOpt (jlookup args "personalization") "tone"))]
        else []
      let fa ← if truthyLen (jsFieldOpt (jlookup args "personalization") "focus_areas") then do
          let j ← jsJoin "personalization.focus_areas"
            (jsFieldOpt (jlookup args "personalization") "focus_areas") ","
          pure [("focus_areas", j)]
        else pure []
      .ok ⟨"/analytics/weekly-summary?" ++ serializeParams (base ++ tone ++ fa), .GET, none⟩)
    fmtStub

/-- `getMonthlyInsights` (src/index.js:7602): `month_offset.toString()`
and `focus_metrics.join` are fallible; truthy `benchmarking` entries are
appended as `benchmark_<key>` after a fallible `.toString()`. -/
def getMonthlyInsightsSpec : HandlerSpec :=
  .oneReq "Failed to get monthly insights: "
    (fun args => do
      let off ← jsToStr (some ((jlookup args "month_offset").getD (.num 0)))
      let metrics ← jsJoin "focus_metrics" (some ((jlookup args "focus_metrics").getD
        (.arr [.str "efficiency", .str "consistency", .str "goal_achievement"]))) ","
      let base :=
        [("offset", off),
         ("depth", jsStringOpt (some ((jlookup args "insight_depth").getD (.str "detailed")))),
         ("metrics", metrics),
         ("planning", jsStringOpt (some ((jlookup args "action_planning").getD (.bool true))))]
      let bench ← if truthy (jlookup args "benchmarking") then
          (jsEntries ((jlookup args "benchmarking").getD .null)).mapM (fun p => do
            let v ← jsToStr (some p.2)
            pure ("benchmark_" ++ p.1, v))
        else pure []
      .ok ⟨"/analytics/monthly-insights?" ++ serializeParams (base ++ bench), .GET, none⟩)
    fmtStub

/-- `updateUserSettings` (src/index.js:7780): the `settings` argument is
sent verbatim as the `PUT` body (`makeTickTickRequest` attaches it only
when truthy). -/
def updateUserSettingsSpec : HandlerSpec :=
  .oneReq "Failed to update user settings: "
    (fun args => .ok ⟨"/user/settings", .PUT, jlookup args "settings"⟩)
    fmtStub

/-- `getNotificationSettings` (src/index.js:7839). -/
def getNotificationSettingsSpec : HandlerSpec :=
  .oneReq "Failed to get notification settings: "
    (fun args =>
      let ps :=
        [("category", jsStringOpt (some ((jlookup args "category").getD (.str "all")))),
         ("disabled", jsStringOpt
           (some ((jlookup args "include_disabled").getD (.bool false))))]
      .ok ⟨"/user/notifications?" ++ serializeParams ps, .GET, none⟩)
    fmtStub

/-- `updateNotificationSettings` (src/index.js:7951): the `notifications`
argument is sent verbatim as the `PUT` body. -/
def updateNotificationSettingsSpec : HandlerSpec :=
  .oneReq "Failed to update notification settings: "
    (fun args => .ok ⟨"/user/notifications", .PUT, jlookup args "notifications"⟩)
    fmtStub

/-- `getSyncSettings` (src/index.js:8047). -/
def getSyncSettingsSpec : HandlerSpec :=
  .oneReq "Failed to get sync settings: "
    (fun args =>
      let ps :=
        [("devices", jsStringOpt (some ((jlookup args "include_device_list").getD (.bool true)))),
         ("history", jsStringOpt
           (some ((jlookup args "include_sync_history").getD (.bool false))))]
      .ok ⟨"/user/sync?" ++ serializeParams ps, .GET, none⟩)
    fmtStub

/-- `updateSyncSettings` (src/index.js:8159): the `sync_settings`
argument is sent verbatim as the `PUT` body. -/
def updateSyncSettingsSpec : HandlerSpec :=
  .oneReq "Failed to update sync settings: "
    (fun args => .ok ⟨"/user/sync", .PUT, jlookup args "sync_settings"⟩)
    fmtStub

/-- `resetUserData` (src/index.js:8263): `undefined` values are dropped
by `JSON.stringify`. -/
def resetUserDataSpec : HandlerSpec :=
  .oneReq "Failed to reset user data: "
    (fun args =>
      .ok ⟨"/user/reset", .POST, some (.obj
        (optField "type" (jlookup args "reset_type")
          ++ optField "categories" (jlookup args "data_categories")
          ++ [("backup", (jlookup args "backup_before_reset").getD (.bool true))]
          ++ optField "confirmation" (jlookup args "confirmation_code")
          ++ [("export", (jlookup args "export_data_first").getD (.bool false))]))⟩)
    fmtStub

/-- The 104 dispatcher cases besides the eight handlers embedded above
(src/index.js:2727-2950), in switch order, each paired with its
request-level spec. -/
def extraHandlers : List (String × HandlerSpec) :=
  [   ("ticktick_create_project", createProjectSpec),
   ("ticktick_get_task_details", getTaskDetailsSpec),
   ("ticktick_filter_tasks", filterTasksSpec),
   ("ticktick_get_tags", getTagsSpec),
   ("ticktick_create_tag", createTagSpec),
   ("ticktick_search_tasks", searchTasksSpec),
   ("ticktick_get_today_tasks", getTodayTasksSpec),
   ("ticktick_get_overdue_tasks", getOverdueTasksSpec),
   ("ticktick_get_upcoming_tasks", getUpcomingTasksSpec),
   ("ticktick_get_user_profile", getUserProfileSpec),
   ("ticktick_get_habits", getHabitsSpec),
   ("ticktick_create_habit", createHabitSpec),
   ("ticktick_update_habit", updateHabitSpec),
   ("ticktick_delete_habit", deleteHabitSpec),
   ("ticktick_checkin_habit", checkinHabitSpec),
   ("ticktick_get_habit_history", getHabitHistorySpec),
   ("ticktick_get_habit_stats", getHabitStatsSpec),
   ("ticktick_pause_habit", pauseHabitSpec),
   ("ticktick_resume_habit", resumeHabitSpec),
   ("ticktick_get_habit_streaks", getHabitStreaksSpec),
   ("ticktick_bulk_checkin_habits", bulkCheckinHabitsSpec),
   ("ticktick_get_habit_calendar", getHabitCalendarSpec),
   ("ticktick_set_habit_goal", setHabitGoalSpec),
   ("ticktick_get_habits_summary", getHabitsSummarySpec),
   ("ticktick_export_habit_data", exportHabitDataSpec),
   ("ticktick_update_tag", updateTagSpec),
   ("ticktick_delete_tag", deleteTagSpec),
   ("ticktick_remove_tag_from_task", removeTagFromTaskSpec),
   ("ticktick_get_tasks_by_tag", getTasksByTagSpec),
   ("ticktick_get_tag_usage_stats", getTagUsageStatsSpec),
   ("ticktick_merge_tags", mergeTagsSpec),
   ("ticktick_bulk_tag_operations", bulkTagOperationsSpec),
   ("ticktick_start_focus_session", startFocusSessionSpec),
   ("ticktick_stop_focus_session", stopFocusSessionSpec),
   ("ticktick_pause_focus_session", pauseFocusSessionSpec),
   ("ticktick_resume_focus_session", resumeFocusSessionSpec),
   ("ticktick_get_focus_stats", getFocusStatsSpec),
   ("ticktick_set_task_estimate", setTaskEstimateSpec),
   ("ticktick_get_daily_focus_summary", getDailyFocusSummarySpec),
   ("ticktick_get_focus_history", getFocusHistorySpec),
   ("ticktick_set_focus_goals", setFocusGoalsSpec),
   ("ticktick_get_productivity_insights", getProductivityInsightsSpec),
   ("ticktick_get_project_folders", getProjectFoldersSpec),
   ("ticktick_create_project_folder", createProjectFolderSpec),
   ("ticktick_move_project_to_folder", moveProjectToFolderSpec),
   ("ticktick_archive_project", archiveProjectSpec),
   ("ticktick_unarchive_project", unarchiveProjectSpec),
   ("ticktick_duplicate_project", duplicateProjectSpec),
   ("ticktick_get_project_stats", getProjectStatsSpec),
   ("ticktick_set_project_color", setProjectColorSpec),
   ("ticktick_reorder_projects", reorderProjectsSpec),
   ("ticktick_get_project_templates", getProjectTemplatesSpec),
   ("ticktick_create_project_from_template", createProjectFromTemplateSpec),
   ("ticktick_export_project", exportProjectSpec),
   ("ticktick_share_project", shareProjectSpec),
   ("ticktick_get_shared_projects", getSharedProjectsSpec),
   ("ticktick_invite_collaborator", inviteCollaboratorSpec),
   ("ticktick_remove_collaborator", removeCollaboratorSpec),
   ("ticktick_assign_task", assignTaskSpec),
   ("ticktick_get_task_assignees", getTaskAssigneesSpec),
   ("ticktick_add_task_comment", addTaskCommentSpec),
   ("ticktick_get_team_activity", getTeamActivitySpec),
   ("ticktick_set_project_permissions", setProjectPermissionsSpec),
   ("ticktick_get_collaboration_stats", getCollaborationStatsSpec),
   ("ticktick_bulk_assign_tasks", bulkAssignTasksSpec),
   ("ticktick_export_team_report", exportTeamReportSpec),
   ("ticktick_get_calendar_events", getCalendarEventsSpec),
   ("ticktick_create_calendar_event", createCalendarEventSpec),
   ("ticktick_sync_with_google_calendar", syncWithGoogleCalendarSpec),
   ("ticktick_sync_with_outlook", syncWithOutlookSpec),
   ("ticktick_get_calendar_view", getCalendarViewSpec),
   ("ticktick_convert_task_to_event", convertTaskToEventSpec),
   ("ticktick_get_schedule_conflicts", getScheduleConflictsSpec),
   ("ticktick_bulk_calendar_import", bulkCalendarImportSpec),
   ("ticktick_get_task_notes", getTaskNotesSpec),
   ("ticktick_add_task_note", addTaskNoteSpec),
   ("ticktick_update_task_note", updateTaskNoteSpec),
   ("ticktick_delete_task_note", deleteTaskNoteSpec),
   ("ticktick_upload_task_attachment", uploadTaskAttachmentSpec),
   ("ticktick_get_task_attachments", getTaskAttachmentsSpec),
   ("ticktick_download_task_attachment", downloadTaskAttachmentSpec),
   ("ticktick_delete_task_attachment", deleteTaskAttachmentSpec),
   ("ticktick_get_task_templates", getTaskTemplatesSpec),
   ("ticktick_create_task_template", createTaskTemplateSpec),
   ("ticktick_update_task_template", updateTaskTemplateSpec),
   ("ticktick_delete_task_template", deleteTaskTemplateSpec),
   ("ticktick_create_task_from_template", createTaskFromTemplateSpec),
   ("ticktick_set_recurring_task", setRecurringTaskSpec),
   ("ticktick_get_recurring_tasks", getRecurringTasksSpec),
   ("ticktick_pause_recurring_task", pauseRecurringTaskSpec),
   ("ticktick_bulk_create_from_template", bulkCreateFromTemplateSpec),
   ("ticktick_get_productivity_report", getProductivityReportSpec),
   ("ticktick_get_completion_trends", getCompletionTrendsSpec),
   ("ticktick_get_time_tracking_report", getTimeTrackingReportSpec),
   ("ticktick_get_goal_progress", getGoalProgressSpec),
   ("ticktick_export_analytics_data", exportAnalyticsDataSpec),
   ("ticktick_get_weekly_summary", getWeeklySummarySpec),
   ("ticktick_get_monthly_insights", getMonthlyInsightsSpec),
   ("ticktick_update_user_settings", updateUserSettingsSpec),
   ("ticktick_get_notification_settings", getNotificationSettingsSpec),
   ("ticktick_update_notification_settings", updateNotificationSettingsSpec),
   ("ticktick_get_sync_settings", getSyncSettingsSpec),
   ("ticktick_update_sync_settings", updateSyncSettingsSpec),
   ("ticktick_reset_user_data", resetUserDataSpec)]

/-- The 112 tool names registered in the dispatcher switch of
`setupHandlers` (src/index.js:2727), in source order; they coincide with
the names advertised by the ListTools handler. -/
def registeredToolNames : List String :=
  [   "ticktick_get_projects",
   "ticktick_create_project",
   "ticktick_get_tasks",
   "ticktick_create_task",
   "ticktick_update_task",
   "ticktick_delete_task",
   "ticktick_complete_task",
   "ticktick_get_task_details",
   "ticktick_filter_tasks",
   "ticktick_convert_datetime_to_ticktick_format",
   "ticktick_get_tags",
   "ticktick_create_tag",
   "ticktick_search_tasks",
   "ticktick_get_today_tasks",
   "ticktick_get_overdue_tasks",
   "ticktick_get_upcoming_tasks",
   "ticktick_add_tag_to_task",
   "ticktick_get_user_profile",
   "ticktick_get_habits",
   "ticktick_create_habit",
   "ticktick_update_habit",
   "ticktick_delete_habit",
   "ticktick_checkin_habit",
   "ticktick_get_habit_history",
   "ticktick_get_habit_stats",
   "ticktick_pause_habit",
   "ticktick_resume_habit",
   "ticktick_get_habit_streaks",
   "ticktick_bulk_checkin_habits",
   "ticktick_get_habit_calendar",
   "ticktick_set_habit_goal",
   "ticktick_get_habits_summary",
   "ticktick_export_habit_data",
   "ticktick_update_tag",
   "ticktick_delete_tag",
   "ticktick_remove_tag_from_task",
   "ticktick_get_tasks_by_tag",
   "ticktick_get_tag_usage_stats",
   "ticktick_merge_tags",
   "ticktick_bulk_tag_operations",
   "ticktick_start_focus_session",
   "ticktick_stop_focus_session",
   "ticktick_pause_focus_session",
   "ticktick_resume_focus_session",
   "ticktick_get_focus_stats",
   "ticktick_set_task_estimate",
   "ticktick_get_daily_focus_summary",
   "ticktick_get_focus_history",
   "ticktick_set_focus_goals",
   "ticktick_get_productivity_insights",
   "ticktick_get_project_folders",
   "ticktick_create_project_folder",
   "ticktick_move_project_to_folder",
   "ticktick_archive_project",
   "ticktick_unarchive_project",
   "ticktick_duplicate_project",
   "ticktick_get_project_stats",
   "ticktick_set_project_color",
   "ticktick_reorder_projects",
   "ticktick_get_project_templates",
   "ticktick_create_project_from_template",
   "ticktick_export_project",
   "ticktick_share_project",
   "ticktick_get_shared_projects",
   "ticktick_invite_collaborator",
   "ticktick_remove_collaborator",
   "ticktick_assign_task",
   "ticktick_get_task_assignees",
   "ticktick_add_task_comment",
   "ticktick_get_team_activity",
   "ticktick_set_project_permissions",
   "ticktick_get_collaboration_stats",
   "ticktick_bulk_assign_tasks",
   "ticktick_export_team_report",
   "ticktick_get_calendar_events",
   "ticktick_create_calendar_event",
   "ticktick_sync_with_google_calendar",
   "ticktick_sync_with_outlook",
   "ticktick_get_calendar_view",
   "ticktick_convert_task_to_event",
   "ticktick_get_schedule_conflicts",
   "ticktick_bulk_calendar_import",
   "ticktick_get_task_notes",
   "ticktick_add_task_note",
   "ticktick_update_task_note",
   "ticktick_delete_task_note",
   "ticktick_upload_task_attachment",
   "ticktick_get_task_attachments",
   "ticktick_download_task_attachment",
   "ticktick_delete_task_attachment",
   "ticktick_get_task_templates",
   "ticktick_create_task_template",
   "ticktick_update_task_template",
   "ticktick_delete_task_template",
   "ticktick_create_task_from_template",
   "ticktick_set_recurring_task",
   "ticktick_get_recurring_tasks",
   "ticktick_pause_recurring_task",
   "ticktick_bulk_create_from_template",
   "ticktick_get_productivity_report",
   "ticktick_get_completion_trends",
   "ticktick_get_time_tracking_report",
   "ticktick_get_goal_progress",
   "ticktick_export_analytics_data",
   "ticktick_get_weekly_summary",
   "ticktick_get_monthly_insights",
   "ticktick_update_user_settings",
   "ticktick_get_notification_settings",
   "ticktick_update_notification_settings",
   "ticktick_get_sync_settings",
   "ticktick_update_sync_settings",
   "ticktick_reset_user_data"]

/-- The dispatcher switch inside the CallToolRequest handler
(src/index.js:2726): routes the eight fully embedded tools to their
handlers, the remaining 104 registered names to their request-level specs
in `extraHandlers`, and any other name to the `default` branch, which
throws `MethodNotFound` — inside the `try` block. -/
def dispatchTool (name : String) (args : Args) : HttpM ToolResult :=
  if name = "ticktick_get_projects" then getProjects args
  else if name = "ticktick_get_tasks" then getTasks args
  else if name = "ticktick_create_task" then createTask args
  else if name = "ticktick_update_task" then updateTask args
  else if name = "ticktick_delete_task" then deleteTask args
  else if name = "ticktick_complete_task" then completeTask args
  else if name = "ticktick_convert_datetime_to_ticktick_format" then
    convertDatetimeToTicktickFormat args
  else if name = "ticktick_add_tag_to_task" then addTagToTask args
  else match (extraHandlers.find? (fun p => p.1 == name)) with
  | some p => runSpec p.2 args
  | none => HttpM.throw (.mcp (McpError.mk .MethodNotFound ("Unknown tool: " ++ name)))

/-- The full CallToolRequest handler (src/index.js:2718): the credential
guard runs before the `try` block, so its `InvalidRequest` error surfaces
untouched; every error thrown inside the `try` block — including the
`MethodNotFound` of the default branch — is rewrapped by the `catch`
block into an `InternalError` carrying the caught message. -/
def handleCallTool (cfg : Config) (name : String) (args : Args)
    (net : Request -> Except String HttpResp) :
    Except McpError ToolResult × List Request :=
  if cfg.hasCreds then
    match dispatchTool name args cfg net with
    | (.ok r, rs) => (.ok r, rs)
    | (.error e, rs) =>
      (.error (McpError.mk .InternalError ("Error: " ++ e.message)), rs)
  else
    (.error (McpError.mk .InvalidRequest "TickTick credentials not properly configured"), [])

/-- The server's per-process state: the `TickTickMCPServer` instance holds
only the SDK server object and the module-level configuration constants;
no handler assigns to instance or module state after construction
(source inspection: no assignment outside the constructor), so one tool
call leaves the state unchanged. -/
structure ServerState where
  cfg : Config

/-- One complete tool call against the running server: the response, the
outbound request trace, and the server state afterwards. -/
def callServer (s : ServerState) (name : String) (args : Args)
    (net : Request -> Except String HttpResp) :
    (Except McpError ToolResult × List Request) × ServerState :=
  (handleCallTool s.cfg name args net, s)

/-- Sample configuration with `TICKTICK_ACCESS_TOKEN=tok` set (used by the
concrete evaluations below). -/
def cfgTok : Config := { accessToken := some "tok", token := none }

/-- Network oracle delivering a 200 response with the given JSON body to
every request. -/
def okNet (body : JVal) : Request → Except String HttpResp :=
  fun _ => .ok { status := 200, statusText := "OK", bodyText := "", bodyJson := body }

/-- Fields of a JSON object (empty for non-objects). -/
def objFields : JVal → List (String × JVal)
  | .obj fs => fs
  | _ => []

/-- The claim-relevant tools whose handlers are modelled above. -/
def modeledToolNames : List String :=
  ["ticktick_get_projects", "ticktick_get_tasks", "ticktick_create_task",
   "ticktick_update_task", "ticktick_delete_task", "ticktick_complete_task",
   "ticktick_convert_datetime_to_ticktick_format", "ticktick_add_tag_to_task"]

theorem rewrap_trace (x : HttpM α) (p : String) (cfg : Config)
    (net : Request → Except String HttpResp) :
    (HttpM.rewrap x p cfg net).2 = (x cfg net).2 := by
  unfold HttpM.rewrap
  rcases x cfg net with ⟨r, rs⟩
  cases r <;> rfl

theorem ofExcept_trace (x : Except String α) (cfg : Config)
    (net : Request → Except String HttpResp) :
    (HttpM.ofExcept x cfg net).2 = [] := by
  cases x <;> rfl

theorem bind_trace (x : HttpM α) (k : α → HttpM β) (cfg : Config)
    (net : Request → Except String HttpResp)
    (hk : ∀ a, (k a cfg net).2 = []) :
    (HttpM.bind x k cfg net).2 = (x cfg net).2 := by
  unfold HttpM.bind
  rcases hx : x cfg net with ⟨r, rs⟩
  cases r with
  | ok a => simp [hk a]
  | error e => rfl

theorem makeRequest_trace (e : String) (m : HttpMethod) (d : Option JVal)
    (cfg : Config) (net : Request → Except String HttpResp) :
    (makeTickTickRequest e m d cfg net).2 = [mkRequest cfg e m d] := by
  simp only [makeTickTickRequest]
  rcases hn : net (mkRequest cfg e m d) with msg | resp
  · rfl
  · by_cases h : resp.isOk <;> simp [h]

theorem handleCallTool_trace (cfg : Config) (name : String) (args : Args)
    (net : Request → Except String HttpResp) (h : cfg.hasCreds = true) :
    (handleCallTool cfg name args net).2 = (dispatchTool name args cfg net).2 := by
  unfold handleCallTool
  rw [h]
  rcases dispatchTool name args cfg net with ⟨r, rs⟩
  cases r <;> rfl


theorem getTasks_trace (args : Args) (cfg : Config)
    (net : Request → Except String HttpResp) :
    (getTasks args cfg net).2 = [mkRequest cfg (getTasksEndpoint args) .GET none] := by
  unfold getTasks
  rw [rewrap_trace, bind_trace _ _ _ _ (fun a => ofExcept_trace _ _ _)]
  exact makeRequest_trace _ _ _ _ _

theorem createTask_trace (args : Args) (cfg : Config)
    (net : Request → Except String HttpResp) :
    (createTask args cfg net).2
      = [mkRequest cfg "/task" .POST (some (createTaskBody args))] := by
  simp only [createTask]
  rw [rewrap_trace, bind_trace _ _ _ _ (fun a => ofExcept_trace _ _ _)]
  exact makeRequest_trace _ _ _ _ _

set_option maxRecDepth 4096 in
/-- No table name is one of the eight separately embedded tools. -/
theorem extra_not_modeled :
    ∀ s ∈ extraHandlers.map Prod.fst, s ∉ modeledToolNames := by decide

/-- C4: if neither TICKTICK_ACCESS_TOKEN nor TICKTICK_TOKEN is set, every
tool call — for every tool name, argument object and network oracle —
fails with an `InvalidRequest` error and issues no outbound request (the
guard runs before the dispatch switch and before any handler). -/
theorem no_credentials_fails_fast (cfg : Config) (name : String) (args : Args)
    (net : Request → Except String HttpResp)
    (h1 : cfg.accessToken = none) (h2 : cfg.token = none) :
    handleCallTool cfg name args net
      = (.error ⟨.InvalidRequest, "TickTick credentials not properly configured"⟩, []) := by
  unfold handleCallTool
  have hc : cfg.hasCreds = false := by
    unfold Config.hasCreds
    rw [h1, h2]
    rfl
  rw [hc]
  rfl

/-- Witness for C4 at the concrete configuration with both variables unset
and the tool `ticktick_get_tasks` with empty arguments. -/
theorem no_credentials_fails_fast_witness :
    (Config.mk none none).accessToken = none ∧ (Config.mk none none).token = none ∧
    handleCallTool (Config.mk none none) "ticktick_get_tasks" [] (okNet (.arr []))
      = (.error ⟨.InvalidRequest, "TickTick credentials not properly configured"⟩, []) :=
  ⟨rfl, rfl, no_credentials_fails_fast (Config.mk none none) "ticktick_get_tasks" []
    (okNet (.arr [])) rfl rfl⟩

/-- C8: repeating the same tool call against the server produces the same
response and the same outbound request trace: a call leaves the server
state unchanged (no handler mutates instance or module state), so the
second identical invocation behaves identically. -/
theorem repeated_call_same_requests (s : ServerState) (name : String) (args : Args)
    (net : Request → Except String HttpResp) :
    (callServer s name args net).2 = s ∧
    (callServer ((callServer s name args net).2) name args net).1.2
      = (callServer s name args net).1.2 ∧
    (callServer ((callServer s name args net).2) name args net).1.1
      = (callServer s name args net).1.1 :=
  ⟨rfl, rfl, rfl⟩

/-- C1 (code bug): calling `ticktick_delete_task` with an empty argument
object — missing the declared required field `task_id` — is not rejected:
no schema validation runs, the handler interpolates `undefined` into the
path, one outbound `DELETE /task/undefined` is issued, and the call
returns a success text instead of an `InvalidRequest` error. -/
theorem delete_task_missing_field_sends_request :
    (handleCallTool cfgTok "ticktick_delete_task" [] (okNet (.obj []))).2
      = [{ method := .DELETE, path := "/task/undefined", body := none,
           auth := "Bearer tok" }] ∧
    ∃ t, (handleCallTool cfgTok "ticktick_delete_task" [] (okNet (.obj []))).1 = .ok t :=
  ⟨rfl, ⟨_, rfl⟩⟩

/-- C6: `ticktick_create_task` with arguments `title: Test, content: hello`
and no project id issues exactly one request, `POST /task`, whose JSON
body is exactly `title, content, priority: 0, status: 0` in that order,
with no `projectId` key. -/
theorem create_task_example_request :
    (handleCallTool cfgTok "ticktick_create_task"
        [("title", JVal.str "Test"), ("content", JVal.str "hello")] (okNet (.obj []))).2
      = [{ method := .POST, path := "/task",
           body := some (.obj [("title", .str "Test"), ("content", .str "hello"),
                               ("priority", .num 0), ("status", .num 0)]),
           auth := "Bearer tok" }] ∧
    "projectId" ∉ (objFields (createTaskBody
        [("title", JVal.str "Test"), ("content", JVal.str "hello")])).map Prod.fst :=
  ⟨rfl, by decide⟩

/-- C2 counterexample: an unknown tool name does not surface a
`MethodNotFound` error — the dispatcher's catch block rewraps it, so the
caller sees the `InternalError` code. -/
theorem unknown_tool_not_method_not_found_cx :
    ∃ e, (handleCallTool cfgTok "ticktick_frobnicate" [] (okNet (.obj []))).1 = .error e
      ∧ e.code = .InternalError ∧ e.code ≠ .MethodNotFound :=
  ⟨⟨.InternalError, "Error: MCP error -32601: Unknown tool: ticktick_frobnicate"⟩,
    rfl, rfl, by decide⟩

set_option maxRecDepth 4096 in
/-- Every name in the handler table is a registered tool name. -/
theorem extra_names_registered :
    ∀ s ∈ extraHandlers.map Prod.fst, s ∈ registeredToolNames := by decide

/-- A name outside the registered list misses the handler table. -/
theorem find_extra_eq_none (name : String) (h : name ∉ registeredToolNames) :
    extraHandlers.find? (fun p => p.1 == name) = none := by
  apply List.find?_eq_none.mpr
  intro p hp
  simp only [beq_iff_eq]
  intro he
  exact h (he ▸ extra_names_registered p.1 (List.mem_map_of_mem Prod.fst hp))

/-- C2 (amended): for a configured server, an invocation whose tool name is
not among the 112 registered names throws `MethodNotFound` inside the
`try` block, which the catch block rewraps: the error surfaced to the
caller carries the `InternalError` code and the message
`Error: MCP error -32601: Unknown tool: <name>`; no request is issued. -/
theorem unknown_tool_internal_error (cfg : Config) (name : String) (args : Args)
    (net : Request → Except String HttpResp)
    (hc : cfg.hasCreds = true) (h : name ∉ registeredToolNames) :
    handleCallTool cfg name args net
      = (.error ⟨.InternalError,
          "Error: " ++ Thrown.message (.mcp ⟨.MethodNotFound, "Unknown tool: " ++ name⟩)⟩,
         []) := by
  have h1 : name ≠ "ticktick_get_projects" := by rintro rfl; exact h (by decide)
  have h2 : name ≠ "ticktick_get_tasks" := by rintro rfl; exact h (by decide)
  have h3 : name ≠ "ticktick_create_task" := by rintro rfl; exact h (by decide)
  have h4 : name ≠ "ticktick_update_task" := by rintro rfl; exact h (by decide)
  have h5 : name ≠ "ticktick_delete_task" := by rintro rfl; exact h (by decide)
  have h6 : name ≠ "ticktick_complete_task" := by rintro rfl; exact h (by decide)
  have h7 : name ≠ "ticktick_convert_datetime_to_ticktick_format" := by
    rintro rfl; exact h (by decide)
  have h8 : name ≠ "ticktick_add_tag_to_task" := by rintro rfl; exact h (by decide)
  unfold handleCallTool dispatchTool
  rw [hc]
  simp only [h1, h2, h3, h4, h5, h6, h7, h8, if_false, if_neg, ite_false]
  rw [find_extra_eq_none name h]
  rfl

/-- Witness for C2 at the unknown name `not_a_tool` and a configured
server. -/
theorem unknown_tool_internal_error_witness :
    cfgTok.hasCreds = true ∧ "not_a_tool" ∉ registeredToolNames ∧
    handleCallTool cfgTok "not_a_tool" [] (okNet (.obj []))
      = (.error ⟨.InternalError,
          "Error: " ++ Thrown.message (.mcp ⟨.MethodNotFound, "Unknown tool: " ++ "not_a_tool"⟩)⟩,
         []) :=
  ⟨rfl, by decide,
    unknown_tool_internal_error cfgTok "not_a_tool" [] (okNet (.obj [])) rfl (by decide)⟩


/-- C9: a supplied `project_id` argument is renamed to TickTick's
`projectId` on the wire — `getTasks` puts it in the query-parameter list
under `projectId`, and `createTask` puts it in the JSON body under
`projectId`; each call issues the single documented request. -/
theorem project_id_maps_to_projectId (pid : String) (h : pid ≠ "") :
    getTasksParams [("project_id", JVal.str pid)]
        = [("projectId", pid), ("limit", "50")] ∧
    (handleCallTool cfgTok "ticktick_get_tasks" [("project_id", JVal.str pid)]
        (okNet (.arr []))).2
      = [mkRequest cfgTok (getTasksEndpoint [("project_id", JVal.str pid)]) .GET none] ∧
    (handleCallTool cfgTok "ticktick_create_task"
        [("title", JVal.str "T"), ("project_id", JVal.str pid)] (okNet (.obj []))).2
      = [mkRequest cfgTok "/task" .POST (some (.obj
          [("title", .str "T"), ("content", .str ""), ("priority", .num 0),
           ("status", .num 0), ("projectId", .str pid)]))] := by
  have ht : truthy (some (JVal.str pid)) = true := by
    show (if pid = "" then false else true) = true
    rw [if_neg h]
  refine ⟨?_, ?_, ?_⟩
  · have e1 : getTasksParams [("project_id", JVal.str pid)]
        = ((if truthy (some (JVal.str pid)) = true then [("projectId", pid)] else [])
          ++ []) ++ [("limit", "50")] := rfl
    rw [e1, ht]
    rfl
  · rw [handleCallTool_trace cfgTok _ _ _ rfl]
    show (getTasks [("project_id", JVal.str pid)] cfgTok (okNet (.arr []))).2
      = [mkRequest cfgTok (getTasksEndpoint [("project_id", JVal.str pid)]) .GET none]
    exact getTasks_trace _ cfgTok _
  · have e3 : (handleCallTool cfgTok "ticktick_create_task"
        [("title", JVal.str "T"), ("project_id", JVal.str pid)] (okNet (.obj []))).2
        = [mkRequest cfgTok "/task" .POST (some (createTaskBody
            [("title", JVal.str "T"), ("project_id", JVal.str pid)]))] := by
      rw [handleCallTool_trace cfgTok _ _ _ rfl]
      show (createTask [("title", JVal.str "T"), ("project_id", JVal.str pid)] cfgTok
          (okNet (.obj []))).2
        = [mkRequest cfgTok "/task" .POST (some (createTaskBody
            [("title", JVal.str "T"), ("project_id", JVal.str pid)]))]
      exact createTask_trace _ cfgTok _
    rw [e3]
    have e4 : createTaskBody [("title", JVal.str "T"), ("project_id", JVal.str pid)]
        = JVal.obj ([("title", JVal.str "T"), ("content", JVal.str ""),
              ("priority", JVal.num 0), ("status", JVal.num 0)]
            ++ ((if truthy (some (JVal.str pid)) = true
                then [("projectId", JVal.str pid)] else []) ++ [] ++ [])) := rfl
    rw [e4, ht]
    simp [mkRequest]

/-- Witness for C9 at the concrete project id `P1`. -/
theorem project_id_maps_to_projectId_witness :
    getTasksParams [("project_id", JVal.str "P1")] = [("projectId", "P1"), ("limit", "50")] :=
  (project_id_maps_to_projectId "P1" (by decide)).1

/-- C10: task completion is uniformly encoded as TickTick status codes —
the `completed` boolean maps to query parameter `status=2`/`status=0` in
`getTasks` and body field `status` 2/0 in `updateTask`, `completeTask`
sends exactly the body `status: 2`, and the task formatters' status badge
(`statusText`, the ternary shared by every formatter in the file) renders
Completed exactly when the status strictly equals the number 2, Pending
otherwise. -/
theorem completion_status_uniform :
    (∀ b : Bool, getTasksParams [("completed", JVal.bool b)]
        = [("status", if b then "2" else "0"), ("limit", "50")]) ∧
    (∀ tid : String, ∀ b : Bool,
      (handleCallTool cfgTok "ticktick_update_task"
          [("task_id", JVal.str tid), ("completed", JVal.bool b)] (okNet (.obj []))).2
        = [{ method := .POST, path := "/task/" ++ tid,
             body := some (.obj [("status", .num (if b then 2 else 0))]),
             auth := "Bearer tok" }]) ∧
    (∀ tid : String,
      (handleCallTool cfgTok "ticktick_complete_task" [("task_id", JVal.str tid)]
          (okNet (.obj []))).2
        = [{ method := .POST, path := "/task/" ++ tid,
             body := some (.obj [("status", .num 2)]), auth := "Bearer tok" }]) ∧
    (∀ v : Option JVal, statusText v = " Completed" ↔ isStatus2 v = true) ∧
    (∀ n : Int, isStatus2 (some (.num n)) = true ↔ n = 2) := by
  refine ⟨?_, ?_, ?_, ?_, ?_⟩
  · intro b
    cases b <;> rfl
  · intro tid b
    cases b <;> rfl
  · intro tid
    rfl
  · intro v
    cases hv : isStatus2 v <;> simp [statusText, hv]
  · intro n
    simp [isStatus2]

end TickTick
